import Mathlib

/-!
Verification of the liquid2 reference implementation front-end against its
natural-language specification.

The Rust sources under `src/` are shallowly embedded below:

* `src/unescape.rs` — JSON-style string unescaping over byte sequences.
* `src/lexer.rs` — the `QueryParser` (JSONPath query parser and static type
  checker) and the line-statement lexing of `{% liquid %}` blocks, modelled
  over `PTree`, a rule-labelled pair tree mirroring the pest `Pair` API
  (`as_rule`, `as_str`, `as_span`, `into_inner`).
* `src/parser.rs` — number parsing and the line-mode whitespace handling of
  the template parser.
* `src/ast.rs` and `src/query.rs` — the AST node types and their canonical
  `Display` implementations.

Machine integers are modelled as `Nat`/`Int` with explicit bounds where the
Rust code checks them.  Rust panics (out-of-bounds indexing, `unwrap`,
`unreachable!`, `todo!`) are modelled by the `RustRes.crash` outcome, so
that claims about totality can distinguish a clean error from a panic.
`f64` values are never inspected by any claim; where the source stores an
`f64` the embedding stores either the exact integer the IEEE-754
parse-and-truncate pipeline produces (integer literals) or the source text
of the literal (float literals).
-/

/-- Error kinds from `src/errors.rs` (`LiquidErrorType`). -/
inductive LiquidErrorType where
  | LexerError
  | SyntaxError
  | TypeError
  | NameError
  | ExtError
deriving DecidableEq, Repr

/-- Errors from `src/errors.rs` (`LiquidError { kind, msg }`). -/
structure LiquidError where
  kind : LiquidErrorType
  msg : String
deriving DecidableEq, Repr

/-- `LiquidError::syntax` from `src/errors.rs`. -/
def LiquidError.synErr (msg : String) : LiquidError :=
  ⟨LiquidErrorType.SyntaxError, msg⟩

/-- `LiquidError::typ` from `src/errors.rs`. -/
def LiquidError.typ (msg : String) : LiquidError :=
  ⟨LiquidErrorType.TypeError, msg⟩

/-- `LiquidError::name` from `src/errors.rs`. -/
def LiquidError.nameErr (msg : String) : LiquidError :=
  ⟨LiquidErrorType.NameError, msg⟩

/-- Outcome of running a fallible Rust function: a value, a `LiquidError`,
or a panic (`crash`).  `crash` models out-of-bounds indexing, `unwrap` on
`None`/`Err`, `unreachable!` and `todo!`. -/
inductive RustRes (α : Type) where
  | ok (val : α)
  | err (e : LiquidError)
  | crash
deriving DecidableEq, Repr

def RustRes.bind {α β : Type} : RustRes α → (α → RustRes β) → RustRes β
  | RustRes.ok a, f => f a
  | RustRes.err e, _ => RustRes.err e
  | RustRes.crash, _ => RustRes.crash

instance : Monad RustRes where
  pure := RustRes.ok
  bind := RustRes.bind

/-- `Result`-style `?` on a unit-returning check. -/
def RustRes.andThen {α : Type} : RustRes Unit → RustRes α → RustRes α
  | RustRes.ok _, k => k
  | RustRes.err e, _ => RustRes.err e
  | RustRes.crash, _ => RustRes.crash

/-! ### Byte-level helpers

`src/unescape.rs` operates on `value.as_bytes()`; bytes are modelled as
`Nat` (every value produced or consumed is `< 256`). -/

/-- UTF-8 encoding of a Unicode scalar value, as produced by Rust's
`char::encode_utf8`. -/
def utf8EncodeChar (c : Nat) : List Nat :=
  if c < 0x80 then [c]
  else if c < 0x800 then [0xC0 + c / 64, 0x80 + c % 64]
  else if c < 0x10000 then [0xE0 + c / 4096, 0x80 + c / 64 % 64, 0x80 + c % 64]
  else [0xF0 + c / 0x40000, 0x80 + c / 4096 % 64, 0x80 + c / 64 % 64, 0x80 + c % 64]

/-- Is `b` a UTF-8 continuation byte? -/
def utf8IsCont (b : Nat) : Bool := 0x80 ≤ b ∧ b ≤ 0xBF

/-- One step of strict UTF-8 decoding: the leading code point and the
remaining bytes, or `none` on invalid input (continuation bytes out of
place, overlong forms, surrogates, values above `0x10FFFF`). -/
def utf8DecStep : List Nat → Option (Nat × List Nat)
  | [] => none
  | b :: bs =>
    if b < 0x80 then some (b, bs)
    else if 0xC2 ≤ b ∧ b ≤ 0xDF then
      match bs with
      | b2 :: rest =>
        if utf8IsCont b2 then some ((b - 0xC0) * 64 + (b2 - 0x80), rest)
        else none
      | _ => none
    else if 0xE0 ≤ b ∧ b ≤ 0xEF then
      match bs with
      | b2 :: b3 :: rest =>
        if utf8IsCont b2 ∧ utf8IsCont b3
            ∧ (b = 0xE0 → 0xA0 ≤ b2) ∧ (b = 0xED → b2 ≤ 0x9F) then
          some ((b - 0xE0) * 4096 + (b2 - 0x80) * 64 + (b3 - 0x80), rest)
        else none
      | _ => none
    else if 0xF0 ≤ b ∧ b ≤ 0xF4 then
      match bs with
      | b2 :: b3 :: b4 :: rest =>
        if utf8IsCont b2 ∧ utf8IsCont b3 ∧ utf8IsCont b4
            ∧ (b = 0xF0 → 0x90 ≤ b2) ∧ (b = 0xF4 → b2 ≤ 0x8F) then
          some ((b - 0xF0) * 0x40000 + (b2 - 0x80) * 4096 + (b3 - 0x80) * 64 + (b4 - 0x80),
            rest)
        else none
      | _ => none
    else none

theorem utf8DecStep_shrinks (l : List Nat) (cp : Nat) (rest : List Nat)
    (h : utf8DecStep l = some (cp, rest)) : rest.length < l.length := by
  match l with
  | [] => exact absurd h (by simp [utf8DecStep])
  | b :: bs =>
    unfold utf8DecStep at h
    repeat' split at h
    all_goals simp_all
    all_goals omega

/-- Strict UTF-8 decoding with fuel (one unit per code point; `l.length`
always suffices). -/
def utf8DecGo : Nat → List Nat → Option (List Nat)
  | _, [] => some []
  | 0, _ :: _ => none
  | fuel + 1, b :: bs =>
    match utf8DecStep (b :: bs) with
    | none => none
    | some (cp, rest) => (utf8DecGo fuel rest).map (fun r => cp :: r)

/-- Strict UTF-8 decoder, returning the list of code points.  Models Rust's
`str::from_utf8` / `String::from_utf8` validity check. -/
def utf8Dec (l : List Nat) : Option (List Nat) := utf8DecGo l.length l

/-- The UTF-8 bytes of a Lean string (Rust's `str::as_bytes`). -/
def strToBytes (s : String) : List Nat :=
  s.data.flatMap (fun c => utf8EncodeChar c.toNat)

/-- Build a string back from decoded code points. -/
def strOfCps (cps : List Nat) : String :=
  String.mk (cps.map Char.ofNat)

/-! ### `src/unescape.rs` -/

/-- `is_high_surrogate` from `src/unescape.rs` (lines 99-101). -/
def is_high_surrogate (code_point : Nat) : Bool :=
  0xD800 ≤ code_point ∧ code_point ≤ 0xDBFF

/-- `is_low_surrogate` from `src/unescape.rs` (lines 103-105). -/
def is_low_surrogate (code_point : Nat) : Bool :=
  0xDC00 ≤ code_point ∧ code_point ≤ 0xDFFF

/-- The numeric value of an ASCII hex digit, as accepted by
`u32::from_str_radix(_, 16)`. -/
def hexDigitVal (c : Nat) : Option Nat :=
  if 48 ≤ c ∧ c ≤ 57 then some (c - 48)
  else if 65 ≤ c ∧ c ≤ 70 then some (c - 55)
  else if 97 ≤ c ∧ c ≤ 102 then some (c - 87)
  else none

/-- Fold hex digits left to right. -/
def hexFold : List Nat → Nat → Option Nat
  | [], acc => some acc
  | c :: cs, acc =>
    match hexDigitVal c with
    | some d => hexFold cs (acc * 16 + d)
    | none => none

/-- `u32::from_str_radix(s, 16)`: an optional `+`/`-` sign followed by at
least one hex digit; a `-` sign is only accepted when the value is `0`.
(Overflow cannot occur for the at-most-four-digit inputs reaching this in
`src/unescape.rs`.) -/
def radix16U32 (cps : List Nat) : Option Nat :=
  match cps with
  | [] => none
  | c :: cs =>
    if c = 43 then
      match cs with
      | [] => none
      | _ => hexFold cs 0
    else if c = 45 then
      match cs with
      | [] => none
      | _ => match hexFold cs 0 with
        | some 0 => some 0
        | _ => none
    else hexFold cps 0

/-- `parse_hex_digits` from `src/unescape.rs` (lines 82-86):
`str::from_utf8(digits).unwrap()` (a panic if the slice is not valid
UTF-8) followed by `u32::from_str_radix(_, 16)`, whose failure becomes a
`SyntaxError`. -/
def parse_hex_digits (digits : List Nat) : RustRes Nat :=
  match utf8Dec digits with
  | none => RustRes.crash
  | some cps =>
    match radix16U32 cps with
    | some v => RustRes.ok v
    | none => RustRes.err (LiquidError.synErr "invalid escape sequence")

/-- `decode_hex_char` from `src/unescape.rs` (lines 43-80).  `index` is the
position of the `u` of a `\uXXXX` escape; returns the decoded code point
and the index of the last consumed byte. -/
def decode_hex_char (bytes : List Nat) (index : Nat) : RustRes (Nat × Nat) :=
  if index + 4 ≥ bytes.length then
    RustRes.err (LiquidError.synErr "incomplete escape sequence")
  else
    -- `index` below stands for the source's `index = index + 1` (just past `u`).
    match parse_hex_digits ((bytes.drop (index + 1)).take 4) with
    | RustRes.err e => RustRes.err e
    | RustRes.crash => RustRes.crash
    | RustRes.ok code_point =>
      if is_low_surrogate code_point then
        RustRes.err (LiquidError.synErr "unexpected low surrogate code point")
      else if is_high_surrogate code_point then
        if (index + 1) + 9 < bytes.length ∧ bytes.getD ((index + 1) + 4) 0 = 92
            ∧ bytes.getD ((index + 1) + 5) 0 = 117 then
          match parse_hex_digits ((bytes.drop ((index + 1) + 6)).take 4) with
          | RustRes.err e => RustRes.err e
          | RustRes.crash => RustRes.crash
          | RustRes.ok low_surrogate =>
            if is_low_surrogate low_surrogate then
              -- `0x10000 + (((code_point & 0x03FF) << 10) | (low_surrogate & 0x03FF))`;
              -- the shifted mask and the low mask occupy disjoint bits, so the
              -- bitwise-or is ordinary addition.
              RustRes.ok (0x10000 + ((code_point % 0x400) * 0x400 + low_surrogate % 0x400),
                (index + 1) + 9)
            else
              RustRes.err (LiquidError.synErr "unexpected code point")
        else
          RustRes.err (LiquidError.synErr "incomplete escape sequence")
      else
        RustRes.ok (code_point, (index + 1) + 3)

/-- `encode_code_point` from `src/unescape.rs` (lines 88-97):
`char::from_u32(code_point).unwrap()` panics on surrogates and values
above `0x10FFFF`; otherwise the UTF-8 bytes are appended. -/
def encode_code_point (code_point : Nat) : RustRes (List Nat) :=
  if code_point < 0x1F then
    RustRes.err (LiquidError.synErr "invalid character")
  else if 0xD800 ≤ code_point ∧ code_point ≤ 0xDFFF then RustRes.crash
  else if 0x110000 ≤ code_point then RustRes.crash
  else RustRes.ok (utf8EncodeChar code_point)

/-- The `while` loop of `unescape` from `src/unescape.rs` (lines 14-38).
`bytes[index]` past the end of the slice is a panic (`crash`).  The loop
advances `index` by at least one per iteration, so `bytes.length + 1`
units of fuel (as supplied by `unescapeBytes`) always suffice; the
fuel-exhaustion branch is unreachable. -/
def unescapeLoop : Nat → List Nat → Nat → List Nat → RustRes (List Nat)
  | 0, _, _, _ => RustRes.crash
  | fuel + 1, bytes, index, rv =>
    if index < bytes.length then
      if bytes.getD index 0 = 92 then
        if index + 1 < bytes.length then
          if bytes.getD (index + 1) 0 = 34 then unescapeLoop fuel bytes (index + 2) (rv ++ [34])
          else if bytes.getD (index + 1) 0 = 92 then
            unescapeLoop fuel bytes (index + 2) (rv ++ [92])
          else if bytes.getD (index + 1) 0 = 47 then
            unescapeLoop fuel bytes (index + 2) (rv ++ [47])
          else if bytes.getD (index + 1) 0 = 98 then
            unescapeLoop fuel bytes (index + 2) (rv ++ [0x08])
          else if bytes.getD (index + 1) 0 = 102 then
            unescapeLoop fuel bytes (index + 2) (rv ++ [0x0C])
          else if bytes.getD (index + 1) 0 = 110 then
            unescapeLoop fuel bytes (index + 2) (rv ++ [10])
          else if bytes.getD (index + 1) 0 = 114 then
            unescapeLoop fuel bytes (index + 2) (rv ++ [13])
          else if bytes.getD (index + 1) 0 = 116 then
            unescapeLoop fuel bytes (index + 2) (rv ++ [9])
          else if bytes.getD (index + 1) 0 = 117 then
            match decode_hex_char bytes (index + 1) with
            | RustRes.err er => RustRes.err er
            | RustRes.crash => RustRes.crash
            | RustRes.ok (code_point, index2) =>
              match encode_code_point code_point with
              | RustRes.err er => RustRes.err er
              | RustRes.crash => RustRes.crash
              | RustRes.ok x => unescapeLoop fuel bytes (index2 + 1) (rv ++ x)
          else RustRes.err (LiquidError.synErr "unknown escape sequence")
        else RustRes.crash
      else unescapeLoop fuel bytes (index + 1) (rv ++ [bytes.getD index 0])
    else RustRes.ok rv

/-- `unescape` from `src/unescape.rs` on raw bytes (lines 7-41, minus the
final `String::from_utf8(rv).unwrap()`). -/
def unescapeBytes (bytes : List Nat) : RustRes (List Nat) :=
  unescapeLoop (bytes.length + 1) bytes 0 []

/-- `unescape` from `src/unescape.rs` (lines 7-41), including the final
`String::from_utf8(rv).unwrap()` (a panic if the accumulated bytes are not
valid UTF-8).  The `span` argument of the source is unused there and
omitted.  `unescape_string` from `src/lib.rs` forwards to this. -/
def unescape (value : String) : RustRes String :=
  match unescapeBytes (strToBytes value) with
  | RustRes.ok rv =>
    match utf8Dec rv with
    | some cps => RustRes.ok (strOfCps cps)
    | none => RustRes.crash
  | RustRes.err e => RustRes.err e
  | RustRes.crash => RustRes.crash

/-! ### Hex-escape helper facts -/

/-- Uppercase hex digit byte for a value below 16. -/
def hexDigitU (k : Nat) : Nat := if k < 10 then 48 + k else 55 + k

/-- The four hex-digit bytes of a code point below `0x10000`. -/
def hexStr4 (n : Nat) : List Nat :=
  [hexDigitU (n / 4096 % 16), hexDigitU (n / 256 % 16), hexDigitU (n / 16 % 16),
    hexDigitU (n % 16)]

/-- The bytes of a `\uXXXX` escape. -/
def uEsc (n : Nat) : List Nat := 92 :: 117 :: hexStr4 n

theorem utf8DecGo_ascii (fuel : Nat) (l : List Nat) (hf : l.length ≤ fuel)
    (h : ∀ b ∈ l, b < 0x80) : utf8DecGo fuel l = some l := by
  induction fuel generalizing l with
  | zero =>
    cases l with
    | nil => rfl
    | cons b bs => simp at hf
  | succ n ih =>
    cases l with
    | nil => rfl
    | cons b bs =>
      have hb : b < 0x80 := h b (List.mem_cons_self b bs)
      have hstep : utf8DecStep (b :: bs) = some (b, bs) := by
        simp [utf8DecStep, hb]
      have hbs : utf8DecGo n bs = some bs := by
        apply ih bs (by simp at hf; omega)
        intro x hx
        exact h x (List.mem_cons_of_mem b hx)
      simp only [utf8DecGo, hstep, hbs, Option.map_some']

theorem utf8Dec_ascii (l : List Nat) (h : ∀ b ∈ l, b < 0x80) : utf8Dec l = some l :=
  utf8DecGo_ascii l.length l (Nat.le_refl _) h

theorem hexDigitU_facts : ∀ k < 16, 48 ≤ hexDigitU k ∧ hexDigitU k < 0x80
    ∧ hexDigitVal (hexDigitU k) = some k := by decide

theorem parse_hex_digits_hexStr4 (n : Nat) (hn : n < 0x10000) :
    parse_hex_digits (hexStr4 n) = RustRes.ok n := by
  have h1 := hexDigitU_facts (n / 4096 % 16) (Nat.mod_lt _ (by norm_num))
  have h2 := hexDigitU_facts (n / 256 % 16) (Nat.mod_lt _ (by norm_num))
  have h3 := hexDigitU_facts (n / 16 % 16) (Nat.mod_lt _ (by norm_num))
  have h4 := hexDigitU_facts (n % 16) (Nat.mod_lt _ (by norm_num))
  have hdec : utf8Dec (hexStr4 n) = some (hexStr4 n) := by
    apply utf8Dec_ascii
    intro b hb
    simp [hexStr4] at hb
    rcases hb with h | h | h | h <;> omega
  have hne1 : ¬ (hexDigitU (n / 4096 % 16) = 43) := by omega
  have hne2 : ¬ (hexDigitU (n / 4096 % 16) = 45) := by omega
  have hfold : radix16U32 (hexStr4 n) = some n := by
    simp only [hexStr4, radix16U32]
    rw [if_neg hne1, if_neg hne2]
    simp only [hexFold, h1.2.2, h2.2.2, h3.2.2, h4.2.2]
    exact congrArg some (by omega)
  simp only [parse_hex_digits, hdec, hfold]

/-! ### Stepping lemmas for the unescape loop -/

theorem unescapeLoop_done (fuel : Nat) (bytes : List Nat) (index : Nat) (rv : List Nat)
    (h : ¬ index < bytes.length) :
    unescapeLoop (fuel + 1) bytes index rv = RustRes.ok rv := by
  simp only [unescapeLoop]
  rw [if_neg h]

theorem unescapeLoop_u_ok (fuel : Nat) (bytes : List Nat) (index : Nat) (rv : List Nat)
    (cp j : Nat) (x : List Nat)
    (h0 : index < bytes.length) (hb : bytes.getD index 0 = 92)
    (h1 : index + 1 < bytes.length) (he : bytes.getD (index + 1) 0 = 117)
    (hdec : decode_hex_char bytes (index + 1) = RustRes.ok (cp, j))
    (henc : encode_code_point cp = RustRes.ok x) :
    unescapeLoop (fuel + 1) bytes index rv = unescapeLoop fuel bytes (j + 1) (rv ++ x) := by
  simp only [unescapeLoop]
  rw [if_pos h0, hb, if_pos (by rfl), if_pos h1, he]
  norm_num
  simp [hdec, henc]

theorem unescapeLoop_u_err (fuel : Nat) (bytes : List Nat) (index : Nat) (rv : List Nat)
    (er : LiquidError)
    (h0 : index < bytes.length) (hb : bytes.getD index 0 = 92)
    (h1 : index + 1 < bytes.length) (he : bytes.getD (index + 1) 0 = 117)
    (hdec : decode_hex_char bytes (index + 1) = RustRes.err er) :
    unescapeLoop (fuel + 1) bytes index rv = RustRes.err er := by
  simp only [unescapeLoop]
  rw [if_pos h0, hb, if_pos (by rfl), if_pos h1, he]
  norm_num
  simp [hdec]

theorem unescapeLoop_u_enc_err (fuel : Nat) (bytes : List Nat) (index : Nat) (rv : List Nat)
    (cp j : Nat) (er : LiquidError)
    (h0 : index < bytes.length) (hb : bytes.getD index 0 = 92)
    (h1 : index + 1 < bytes.length) (he : bytes.getD (index + 1) 0 = 117)
    (hdec : decode_hex_char bytes (index + 1) = RustRes.ok (cp, j))
    (henc : encode_code_point cp = RustRes.err er) :
    unescapeLoop (fuel + 1) bytes index rv = RustRes.err er := by
  simp only [unescapeLoop]
  rw [if_pos h0, hb, if_pos (by rfl), if_pos h1, he]
  norm_num
  simp [hdec, henc]

/-! ### Decoding lemmas for `\uXXXX` escapes -/

theorem decode_hex_char_pair (hi lo : Nat)
    (hhi : is_high_surrogate hi = true) (hlo : is_low_surrogate lo = true) :
    decode_hex_char (uEsc hi ++ uEsc lo) 1
      = RustRes.ok (0x10000 + ((hi % 0x400) * 0x400 + lo % 0x400), 11) := by
  obtain ⟨a1, a2, a3, a4, hA⟩ : ∃ x1 x2 x3 x4, hexStr4 hi = [x1, x2, x3, x4] :=
    ⟨_, _, _, _, rfl⟩
  obtain ⟨b1, b2, b3, b4, hB⟩ : ∃ x1 x2 x3 x4, hexStr4 lo = [x1, x2, x3, x4] :=
    ⟨_, _, _, _, rfl⟩
  have hhiR : 0xD800 ≤ hi ∧ hi ≤ 0xDBFF := by
    simpa [is_high_surrogate] using hhi
  have hloR : 0xDC00 ≤ lo ∧ lo ≤ 0xDFFF := by
    simpa [is_low_surrogate] using hlo
  have hPA := parse_hex_digits_hexStr4 hi (by omega)
  have hPB := parse_hex_digits_hexStr4 lo (by omega)
  rw [hA] at hPA
  rw [hB] at hPB
  have hnl : is_low_surrogate hi = false := by
    simp [is_low_surrogate]
    omega
  unfold decode_hex_char
  simp only [uEsc, hA, hB, List.cons_append, List.nil_append]
  norm_num [hPA, hPB, hnl, hhi, List.getD]
  simp [is_low_surrogate, is_high_surrogate]
  omega

theorem decode_hex_char_single (n : Nat) (hn : n < 0x10000)
    (hnl : is_low_surrogate n = false) (hnh : is_high_surrogate n = false) :
    decode_hex_char (uEsc n) 1 = RustRes.ok (n, 5) := by
  obtain ⟨a1, a2, a3, a4, hA⟩ : ∃ x1 x2 x3 x4, hexStr4 n = [x1, x2, x3, x4] :=
    ⟨_, _, _, _, rfl⟩
  have hPA := parse_hex_digits_hexStr4 n hn
  rw [hA] at hPA
  unfold decode_hex_char
  simp only [uEsc, hA, List.cons_append, List.nil_append]
  norm_num [hPA, hnl, hnh]

theorem decode_hex_char_lone_low (lo : Nat) (hlo : is_low_surrogate lo = true) :
    decode_hex_char (uEsc lo) 1
      = RustRes.err (LiquidError.synErr "unexpected low surrogate code point") := by
  obtain ⟨a1, a2, a3, a4, hA⟩ : ∃ x1 x2 x3 x4, hexStr4 lo = [x1, x2, x3, x4] :=
    ⟨_, _, _, _, rfl⟩
  have hloR : 0xDC00 ≤ lo ∧ lo ≤ 0xDFFF := by
    simpa [is_low_surrogate] using hlo
  have hPA := parse_hex_digits_hexStr4 lo (by omega)
  rw [hA] at hPA
  unfold decode_hex_char
  simp only [uEsc, hA, List.cons_append, List.nil_append]
  norm_num [hPA, hlo]

theorem decode_hex_char_lone_high (hi : Nat) (hhi : is_high_surrogate hi = true) :
    decode_hex_char (uEsc hi) 1
      = RustRes.err (LiquidError.synErr "incomplete escape sequence") := by
  obtain ⟨a1, a2, a3, a4, hA⟩ : ∃ x1 x2 x3 x4, hexStr4 hi = [x1, x2, x3, x4] :=
    ⟨_, _, _, _, rfl⟩
  have hhiR : 0xD800 ≤ hi ∧ hi ≤ 0xDBFF := by
    simpa [is_high_surrogate] using hhi
  have hPA := parse_hex_digits_hexStr4 hi (by omega)
  rw [hA] at hPA
  have hnl : is_low_surrogate hi = false := by
    simp [is_low_surrogate]
    omega
  unfold decode_hex_char
  simp only [uEsc, hA, List.cons_append, List.nil_append]
  norm_num [hPA, hnl, hhi]

theorem decode_hex_char_high_bad_low (hi x : Nat)
    (hhi : is_high_surrogate hi = true) (hx16 : x < 0x10000)
    (hxnl : is_low_surrogate x = false) :
    decode_hex_char (uEsc hi ++ uEsc x) 1
      = RustRes.err (LiquidError.synErr "unexpected code point") := by
  obtain ⟨a1, a2, a3, a4, hA⟩ : ∃ x1 x2 x3 x4, hexStr4 hi = [x1, x2, x3, x4] :=
    ⟨_, _, _, _, rfl⟩
  obtain ⟨b1, b2, b3, b4, hB⟩ : ∃ x1 x2 x3 x4, hexStr4 x = [x1, x2, x3, x4] :=
    ⟨_, _, _, _, rfl⟩
  have hhiR : 0xD800 ≤ hi ∧ hi ≤ 0xDBFF := by
    simpa [is_high_surrogate] using hhi
  have hPA := parse_hex_digits_hexStr4 hi (by omega)
  have hPB := parse_hex_digits_hexStr4 x hx16
  rw [hA] at hPA
  rw [hB] at hPB
  have hnl : is_low_surrogate hi = false := by
    simp [is_low_surrogate]
    omega
  unfold decode_hex_char
  simp only [uEsc, hA, hB, List.cons_append, List.nil_append]
  norm_num [hPA, hPB, hnl, hhi, hxnl]

/-! ### Claim C2 — totality of unescaping.

The claim states that `unescape_string` never panics and that an input
ending in a lone trailing backslash yields a `SyntaxError`.  The code
violates this: after seeing `\` it reads `bytes[index]` without a bounds
check (`src/unescape.rs` lines 16-18), an out-of-bounds access on the
one-byte input `"\"`.  A truncated `\uXX` escape, by contrast, is caught
by the bounds check in `decode_hex_char` and does yield a `SyntaxError`. -/

/-- C2: on the single-byte input `"\"` the unescaper panics
(out-of-bounds index), instead of returning the `SyntaxError` the claim
requires; a truncated `\u00` escape does produce a `SyntaxError`. -/
theorem C2_trailing_backslash_crash :
    unescapeBytes [92] = RustRes.crash
      ∧ unescape (strOfCps [92]) = RustRes.crash
      ∧ unescapeBytes [92, 117, 48, 48]
          = RustRes.err (LiquidError.synErr "incomplete escape sequence") :=
  ⟨by decide, by decide, by decide⟩

/-! ### Claim C6 — surrogate-pair decoding. -/

/-- C6: a `\uXXXX` escape with a high-surrogate code point followed
immediately by a low-surrogate `\uYYYY` decodes to the single code point
`0x10000 + ((hi & 0x3FF) << 10 | (lo & 0x3FF))` (written with `%`/`*`/`+`,
to which the masked shift-or is equal); a high surrogate not followed by a
low-surrogate escape is an error, as is a lone low surrogate. -/
theorem C6_surrogate_pair_decoding (hi lo x : Nat)
    (hhi : is_high_surrogate hi = true) (hlo : is_low_surrogate lo = true)
    (hx16 : x < 0x10000) (hxnl : is_low_surrogate x = false) :
    unescapeBytes (uEsc hi ++ uEsc lo)
        = RustRes.ok (utf8EncodeChar (0x10000 + ((hi % 0x400) * 0x400 + lo % 0x400)))
      ∧ unescapeBytes (uEsc hi)
          = RustRes.err (LiquidError.synErr "incomplete escape sequence")
      ∧ unescapeBytes (uEsc hi ++ uEsc x)
          = RustRes.err (LiquidError.synErr "unexpected code point")
      ∧ unescapeBytes (uEsc lo)
          = RustRes.err (LiquidError.synErr "unexpected low surrogate code point") := by
  have hhiR : 0xD800 ≤ hi ∧ hi ≤ 0xDBFF := by simpa [is_high_surrogate] using hhi
  have hloR : 0xDC00 ≤ lo ∧ lo ≤ 0xDFFF := by simpa [is_low_surrogate] using hlo
  have henc : encode_code_point (0x10000 + ((hi % 0x400) * 0x400 + lo % 0x400))
      = RustRes.ok (utf8EncodeChar (0x10000 + ((hi % 0x400) * 0x400 + lo % 0x400))) := by
    unfold encode_code_point
    rw [if_neg (by omega), if_neg (by omega), if_neg (by omega)]
  refine ⟨?_, ?_, ?_, ?_⟩
  · have hlen : (uEsc hi ++ uEsc lo).length = 12 := by simp [uEsc, hexStr4]
    unfold unescapeBytes
    rw [hlen]
    rw [unescapeLoop_u_ok 12 _ 0 [] _ 11 _ (by omega) (by simp [uEsc]) (by omega)
      (by simp [uEsc]) (decode_hex_char_pair hi lo hhi hlo) henc]
    rw [unescapeLoop_done 11 _ 12 _ (by omega)]
    simp
  · have hlen : (uEsc hi).length = 6 := by simp [uEsc, hexStr4]
    unfold unescapeBytes
    rw [hlen]
    rw [unescapeLoop_u_err 6 _ 0 [] _ (by omega) (by simp [uEsc]) (by omega)
      (by simp [uEsc]) (decode_hex_char_lone_high hi hhi)]
  · have hlen : (uEsc hi ++ uEsc x).length = 12 := by simp [uEsc, hexStr4]
    unfold unescapeBytes
    rw [hlen]
    rw [unescapeLoop_u_err 12 _ 0 [] _ (by omega) (by simp [uEsc]) (by omega)
      (by simp [uEsc]) (decode_hex_char_high_bad_low hi x hhi hx16 hxnl)]
  · have hlen : (uEsc lo).length = 6 := by simp [uEsc, hexStr4]
    unfold unescapeBytes
    rw [hlen]
    rw [unescapeLoop_u_err 6 _ 0 [] _ (by omega) (by simp [uEsc]) (by omega)
      (by simp [uEsc]) (decode_hex_char_lone_low lo hlo)]

/-- Witness for C6 at `😀` (U+1F600) and the non-surrogate
low slot `A`. -/
theorem C6_surrogate_pair_decoding_witness :
    (is_high_surrogate 0xD83D = true ∧ is_low_surrogate 0xDE00 = true
        ∧ (0x41 : Nat) < 0x10000 ∧ is_low_surrogate 0x41 = false)
      ∧ (unescapeBytes (uEsc 0xD83D ++ uEsc 0xDE00)
            = RustRes.ok (utf8EncodeChar (0x10000 + ((0xD83D % 0x400) * 0x400 + 0xDE00 % 0x400)))
          ∧ unescapeBytes (uEsc 0xD83D)
              = RustRes.err (LiquidError.synErr "incomplete escape sequence")
          ∧ unescapeBytes (uEsc 0xD83D ++ uEsc 0x41)
              = RustRes.err (LiquidError.synErr "unexpected code point")
          ∧ unescapeBytes (uEsc 0xDE00)
              = RustRes.err (LiquidError.synErr "unexpected low surrogate code point")) :=
  ⟨⟨by decide, by decide, by decide, by decide⟩,
    C6_surrogate_pair_decoding 0xD83D 0xDE00 0x41 (by decide) (by decide) (by decide)
      (by decide)⟩

/-! ### Claim C7 — control-character rejection.

The claim says every escape decoding strictly below `0x20` is rejected.
The code (`encode_code_point`, `src/unescape.rs` line 89) tests
`code_point < 0x1F`, so `\u001F` — below `0x20` — is accepted.  The
counterexample shows this; the amended claim replaces the threshold
`0x20` by `0x1F`. -/

/-- C7 counterexample: the escape `\u001F` decodes to code point `0x1F`,
which is strictly below `0x20`, yet unescaping succeeds (the claim, as
stated, requires a `SyntaxError` here). -/
theorem C7_counterexample_u001F_accepted :
    unescapeBytes [92, 117, 48, 48, 49, 70] = RustRes.ok [0x1F]
      ∧ (0x1F : Nat) < 0x20
      ∧ unescape (strOfCps [92, 117, 48, 48, 49, 70]) = RustRes.ok (strOfCps [0x1F]) :=
  ⟨by decide, by decide, by decide⟩

/-- C7 amended: a `\uXXXX` escape (outside the surrogate ranges) is
rejected with a `SyntaxError` exactly when its code point is strictly
below `0x1F`; code points `0x1F` and above are accepted. -/
theorem C7_amended_control_char_rejection (cp : Nat) (h16 : cp < 0x10000)
    (hnl : is_low_surrogate cp = false) (hnh : is_high_surrogate cp = false) :
    unescapeBytes (uEsc cp)
      = (if cp < 0x1F then RustRes.err (LiquidError.synErr "invalid character")
          else RustRes.ok (utf8EncodeChar cp)) := by
  have hlen : (uEsc cp).length = 6 := by simp [uEsc, hexStr4]
  have hdec := decode_hex_char_single cp h16 hnl hnh
  by_cases hlt : cp < 0x1F
  · have henc : encode_code_point cp = RustRes.err (LiquidError.synErr "invalid character") := by
      unfold encode_code_point
      rw [if_pos hlt]
    unfold unescapeBytes
    rw [hlen, if_pos hlt]
    rw [unescapeLoop_u_enc_err 6 _ 0 [] _ 5 _ (by omega) (by simp [uEsc]) (by omega)
      (by simp [uEsc]) hdec henc]
  · have hsl : ¬ (0xD800 ≤ cp ∧ cp ≤ 0xDFFF) := by
      simp [is_low_surrogate] at hnl
      simp [is_high_surrogate] at hnh
      omega
    have henc : encode_code_point cp = RustRes.ok (utf8EncodeChar cp) := by
      unfold encode_code_point
      rw [if_neg hlt, if_neg hsl, if_neg (by omega)]
    unfold unescapeBytes
    rw [hlen, if_neg hlt]
    rw [unescapeLoop_u_ok 6 _ 0 [] _ 5 _ (by omega) (by simp [uEsc]) (by omega)
      (by simp [uEsc]) hdec henc]
    rw [unescapeLoop_done 5 _ 6 _ (by omega)]
    simp

/-- Witness for the amended C7 at the boundary value `0x1F` (accepted) and
at `0x1E` (rejected). -/
theorem C7_amended_control_char_rejection_witness :
    ((0x1F : Nat) < 0x10000 ∧ is_low_surrogate 0x1F = false
        ∧ is_high_surrogate 0x1F = false)
      ∧ unescapeBytes (uEsc 0x1F)
          = (if (0x1F : Nat) < 0x1F then RustRes.err (LiquidError.synErr "invalid character")
              else RustRes.ok (utf8EncodeChar 0x1F))
      ∧ unescapeBytes (uEsc 0x1E)
          = (if (0x1E : Nat) < 0x1F then RustRes.err (LiquidError.synErr "invalid character")
              else RustRes.ok (utf8EncodeChar 0x1E)) :=
  ⟨⟨by decide, by decide, by decide⟩,
    C7_amended_control_char_rejection 0x1F (by decide) (by decide) (by decide),
    C7_amended_control_char_rejection 0x1E (by decide) (by decide) (by decide)⟩

/-! ### String and decimal helpers -/

/-- Code points of a string's characters. -/
def charNats (s : String) : List Nat := s.data.map Char.toNat

/-- ASCII decimal digit? -/
def isDigitByte (c : Nat) : Bool := 48 ≤ c ∧ c ≤ 57

/-- Value of a digit list (most significant first). -/
def digitsVal (cs : List Nat) : Nat := cs.foldl (fun acc c => acc * 10 + (c - 48)) 0

/-- The integer denoted by an optionally signed decimal numeral, with no
bound (the specification-side valuation of a numeral). -/
def decValue? (s : String) : Option Int :=
  match charNats s with
  | [] => none
  | 43 :: cs => if cs ≠ [] ∧ cs.all isDigitByte then some (digitsVal cs : Int) else none
  | 45 :: cs => if cs ≠ [] ∧ cs.all isDigitByte then some (-(digitsVal cs : Int)) else none
  | cs => if cs.all isDigitByte then some (digitsVal cs : Int) else none

def i64Min : Int := -(2 ^ 63)

def i64Max : Int := 2 ^ 63 - 1

/-- `i64::from_str`: an optionally signed decimal numeral; overflow (a
value outside the `i64` range) is an error. -/
def parseI64? (s : String) : Option Int :=
  match decValue? s with
  | some n => if i64Min ≤ n ∧ n ≤ i64Max then some n else none
  | none => none

/-- A single quote character as a string (ASCII 39). -/
def squoteStr : String := strOfCps [39]

/-- A backslash followed by a single quote (the two-byte sequence the
single-quoted lexer arms replace). -/
def escSquoteStr : String := strOfCps [92, 39]

/-- Does the string contain an ASCII minus sign? -/
def strContainsMinus (s : String) : Bool := (charNats s).contains 45

/-- Does the string contain an ASCII full stop? -/
def strContainsDot (s : String) : Bool := (charNats s).contains 46

/-! ### IEEE-754 parse-and-truncate for integer literals

`parse_number` (src/lexer.rs lines 267-319, src/parser.rs lines 503-552,
and the `QueryParser` copies) converts an integer-shaped literal with
`n.parse::<f64>() as i64`.  The shapes reaching that arm have no
fractional part and no `-` in the exponent, so the exact decimal value is
an integer `m·10^k`; the conversion rounds it to the nearest IEEE-754
binary64 (ties to even, overflow to infinity) and then performs Rust's
saturating `as i64` cast. -/

/-- The value of an IEEE-754 binary64 number that is an integer (or an
infinity). -/
inductive Dbl where
  | finite (v : Int)
  | posInf
  | negInf
deriving DecidableEq, Repr

/-- Round an integer to the nearest binary64 (round half to even), with
overflow to infinity. -/
def roundDoubleInt (v : Int) : Dbl :=
  let n := v.natAbs
  if n ≤ 2 ^ 53 then Dbl.finite v
  else
    let e := n.log2 - 52
    let p := 2 ^ e
    let q := n / p
    let r := n % p
    let half := p / 2
    let q2 := if half < r ∨ (r = half ∧ q % 2 = 1) then q + 1 else q
    let rounded := q2 * p
    if 2 ^ 1024 ≤ rounded then (if v < 0 then Dbl.negInf else Dbl.posInf)
    else Dbl.finite (if v < 0 then -(rounded : Int) else (rounded : Int))

/-- Rust's saturating `as i64` cast applied to an integral double. -/
def f64AsI64 (d : Dbl) : Int :=
  match d with
  | Dbl.finite v => if v < i64Min then i64Min else if i64Max < v then i64Max else v
  | Dbl.posInf => i64Max
  | Dbl.negInf => i64Min

/-- Split a character list at the first `e`/`E`. -/
def splitExp : List Nat → List Nat × Option (List Nat)
  | [] => ([], none)
  | c :: rest =>
    if c = 101 ∨ c = 69 then ([], some rest)
    else
      let s := splitExp rest
      (c :: s.1, s.2)

/-- A nonnegative exponent: optional `+` then digits. -/
def parseExpNonneg (cs : List Nat) : Option Nat :=
  match cs with
  | 43 :: ds => if ds ≠ [] ∧ ds.all isDigitByte then some (digitsVal ds) else none
  | ds => if ds ≠ [] ∧ ds.all isDigitByte then some (digitsVal ds) else none

/-- `str::parse::<f64>() as i64` for the integer-shaped literals
(`-?digits` with an optional `e`/`E` `+?digits` exponent) that reach the
integer arm of `parse_number`. -/
def parseF64TruncI64? (s : String) : Option Int :=
  let sp := splitExp (charNats s)
  match decValue? (strOfCps sp.1) with
  | none => none
  | some m =>
    match sp.2 with
    | none => some (f64AsI64 (roundDoubleInt m))
    | some e =>
      match parseExpNonneg e with
      | none => none
      | some k => some (f64AsI64 (roundDoubleInt (m * 10 ^ k)))

/-- Is `s` in the decimal-literal shape `-?digits(.digits)?([eE][+-]?digits)?`
accepted by the pest `number` rule (so `str::parse::<f64>` succeeds)? -/
def isF64Shape (s : String) : Bool :=
  let sp := splitExp (charNats s)
  let mant := if sp.1.head? = some 45 then sp.1.drop 1 else sp.1
  let intFrac : Bool :=
    match mant.splitOn 46 with
    | [ds] => !ds.isEmpty && ds.all isDigitByte
    | [ds, fs] => !ds.isEmpty && ds.all isDigitByte && !fs.isEmpty && fs.all isDigitByte
    | _ => false
  let expOk : Bool :=
    match sp.2 with
    | none => true
    | some (43 :: ds) => !ds.isEmpty && ds.all isDigitByte
    | some (45 :: ds) => !ds.isEmpty && ds.all isDigitByte
    | some ds => !ds.isEmpty && ds.all isDigitByte
  intFrac && expOk

/-! ### The pest pair tree

The pest `Pair` API (`as_rule`, `as_str`, `as_span`, `into_inner`) is
modelled by a rose tree labelled with a rule, the matched text and a byte
span.  The grammar files (`markup.pest`, `liquid2.pest`) are not part of
the core sources; the parse functions below consume any `PTree` and, as in
the source, panic (`crash`) on shapes the grammar would never produce. -/

/-- The pest grammar rules the embedded parse functions inspect. -/
inductive Rule where
  | WC
  | EOI
  | content
  | raw
  | comment
  | output
  | tag
  | liquid_tag
  | line_tag
  | assign
  | capture
  | case
  | cycle
  | decrement
  | increment
  | echo
  | for_
  | break_
  | continue_
  | if_
  | unless
  | include
  | render
  | line_comment
  | symbol
  | reserved_word
  | word
  | multiline_double_quoted
  | double_quoted
  | multiline_single_quoted
  | single_quoted
  | string_literal
  | multiline_string_literal
  | number
  | int
  | frac
  | exp
  | range
  | query
  | child_segment
  | implicit_root_segment
  | descendant_segment
  | name_segment
  | index_segment
  | implicit_root_name_segment
  | bracketed_selection
  | wildcard_selector
  | member_name_shorthand
  | slice_selector
  | index_selector
  | filter_selector
  | singular_query_selector
  | start
  | stop
  | step
  | logical_or_expr
  | logical_and_expr
  | paren_expr
  | comparison_expr
  | test_expr
  | logical_not_op
  | rel_singular_query
  | abs_singular_query
  | function_expr
  | rel_query
  | root_query
  | true_literal
  | false_literal
  | null
deriving DecidableEq, Repr

/-- A pest pair: rule, matched text, byte span, inner pairs. -/
inductive PTree where
  | node (rule : Rule) (text : String) (span : Nat × Nat) (kids : List PTree)
deriving Repr

def PTree.rule : PTree → Rule
  | PTree.node r _ _ _ => r

def PTree.text : PTree → String
  | PTree.node _ s _ _ => s

def PTree.span : PTree → Nat × Nat
  | PTree.node _ _ sp _ => sp

def PTree.kids : PTree → List PTree
  | PTree.node _ _ _ k => k

/-! ### JSONPath query syntax tree (`src/query.rs`, as built by the
`QueryParser` of `src/lexer.rs`, which attaches byte spans) -/

/-- `LogicalOperator` from `src/query.rs`. -/
inductive LogicalOperator where
  | And
  | Or
deriving DecidableEq, Repr

/-- `ComparisonOperator` from `src/query.rs`. -/
inductive ComparisonOperator where
  | Eq
  | Ne
  | Ge
  | Gt
  | Le
  | Lt
deriving DecidableEq, Repr

mutual
/-- `Segment` from `src/query.rs`. -/
inductive Segment where
  | Child (selectors : List Selector) (span : Nat × Nat)
  | Recursive (selectors : List Selector) (span : Nat × Nat)
  | Eoi

/-- `Selector` from `src/query.rs`.  A nested `Query` is represented by
its segment list. -/
inductive Selector where
  | Name (name : String) (span : Nat × Nat)
  | Index (index : Int) (span : Nat × Nat)
  | Slice (start : Option Int) (stop : Option Int) (step : Option Int) (span : Nat × Nat)
  | Wild (span : Nat × Nat)
  | Filter (expression : FilterExpression) (span : Nat × Nat)
  | SingularQuery (query : List Segment) (span : Nat × Nat)

/-- `FilterExpression` from `src/query.rs`.  The `Float` payload keeps the
literal text (no claim inspects `f64` values); nested queries are segment
lists. -/
inductive FilterExpression where
  | True_ (span : Nat × Nat)
  | False_ (span : Nat × Nat)
  | Null (span : Nat × Nat)
  | StringLiteral (value : String) (span : Nat × Nat)
  | Int (value : Int) (span : Nat × Nat)
  | Float (text : String) (span : Nat × Nat)
  | Not (expression : FilterExpression) (span : Nat × Nat)
  | Logical (left : FilterExpression) (operator : LogicalOperator)
      (right : FilterExpression) (span : Nat × Nat)
  | Comparison (left : FilterExpression) (operator : ComparisonOperator)
      (right : FilterExpression) (span : Nat × Nat)
  | RelativeQuery (query : List Segment) (span : Nat × Nat)
  | RootQuery (query : List Segment) (span : Nat × Nat)
  | Function (name : String) (args : List FilterExpression) (span : Nat × Nat)
end

/-- `Query` from `src/query.rs`. -/
structure Query where
  segments : List Segment

/-- `Query::is_empty` from `src/query.rs` (lines 17-19). -/
def Query.is_empty (q : Query) : Bool := q.segments.isEmpty

/-- The body of `Query::is_singular` from `src/query.rs` (lines 22-32),
over a segment list. -/
def segmentsSingular (segments : List Segment) : Bool :=
  segments.all fun segment =>
    match segment with
    | Segment.Child selectors _ =>
      selectors.length == 1 &&
        (match selectors.head? with
          | some (Selector.Name _ _) => true
          | some (Selector.Index _ _) => true
          | _ => false)
    | _ => false

/-- `Query::is_singular` from `src/query.rs`. -/
def Query.is_singular (q : Query) : Bool := segmentsSingular q.segments

/-- `Query::as_word` from `src/query.rs` (lines 37-55). -/
def Query.as_word (q : Query) : Option String :=
  if q.segments.length ≠ 1 then none
  else
    match q.segments.head? with
    | some (Segment.Child selectors _) =>
      if selectors.length ≠ 1 then none
      else
        match selectors.head? with
        | some (Selector.Name name _) => some name
        | _ => none
    | _ => none

/-- `FilterExpression::is_literal` from `src/query.rs` (lines 231-241). -/
def FilterExpression.is_literal : FilterExpression → Bool
  | FilterExpression.True_ _ => true
  | FilterExpression.False_ _ => true
  | FilterExpression.Null _ => true
  | FilterExpression.StringLiteral _ _ => true
  | FilterExpression.Int _ _ => true
  | FilterExpression.Float _ _ => true
  | _ => false

/-! ### Function registry and static type checks (`src/lexer.rs`) -/

/-- `ExpressionType` from `src/lexer.rs` (lines 1009-1014). -/
inductive ExpressionType where
  | Logical
  | Nodes
  | Value
deriving DecidableEq, Repr

/-- `FunctionSignature` from `src/lexer.rs` (lines 1016-1019). -/
structure FunctionSignature where
  param_types : List ExpressionType
  return_type : ExpressionType
deriving DecidableEq, Repr

/-- `standard_functions` from `src/lexer.rs` (lines 1021-1065), as a
lookup function. -/
def standard_functions (name : String) : Option FunctionSignature :=
  if name = "count" then some ⟨[ExpressionType.Nodes], ExpressionType.Value⟩
  else if name = "length" then some ⟨[ExpressionType.Value], ExpressionType.Value⟩
  else if name = "match" then
    some ⟨[ExpressionType.Value, ExpressionType.Value], ExpressionType.Logical⟩
  else if name = "search" then
    some ⟨[ExpressionType.Value, ExpressionType.Value], ExpressionType.Logical⟩
  else if name = "value" then some ⟨[ExpressionType.Nodes], ExpressionType.Value⟩
  else none

/-- Does the registry give `name` return type `Value`?  (The pattern
`if let Some(FunctionSignature { return_type: Value, .. }) = get(name)`
from the source.) -/
def returnsValue (name : String) : Bool :=
  match standard_functions name with
  | some sig => sig.return_type = ExpressionType.Value
  | none => false

/-- `QueryParser::is_value_type` from `src/lexer.rs` (lines 961-985). -/
def is_value_type (expr : FilterExpression) : Bool :=
  if expr.is_literal then true
  else
    match expr with
    | FilterExpression.RelativeQuery q _ => segmentsSingular q
    | FilterExpression.RootQuery q _ => segmentsSingular q
    | FilterExpression.Function name _ _ => returnsValue name
    | _ => false

/-- `QueryParser::is_nodes_type` from `src/lexer.rs` (lines 987-1001). -/
def is_nodes_type (expr : FilterExpression) : Bool :=
  match expr with
  | FilterExpression.RelativeQuery _ _ => true
  | FilterExpression.RootQuery _ _ => true
  | FilterExpression.Function name _ _ =>
    (match standard_functions name with
      | some sig => sig.return_type = ExpressionType.Nodes
      | none => false)
  | _ => false

/-- `QueryParser::assert_comparable` from `src/lexer.rs` (lines 841-870). -/
def assert_comparable (expr : FilterExpression) : RustRes Unit :=
  match expr with
  | FilterExpression.RelativeQuery q _ =>
    if ¬ segmentsSingular q then
      RustRes.err (LiquidError.typ "non-singular query is not comparable")
    else RustRes.ok ()
  | FilterExpression.RootQuery q _ =>
    if ¬ segmentsSingular q then
      RustRes.err (LiquidError.typ "non-singular query is not comparable")
    else RustRes.ok ()
  | FilterExpression.Function name _ _ =>
    if returnsValue name then RustRes.ok ()
    else RustRes.err (LiquidError.typ ("result of " ++ name ++ "() is not comparable"))
  | _ => RustRes.ok ()

/-- `QueryParser::assert_compared` from `src/lexer.rs` (lines 872-890). -/
def assert_compared (expr : FilterExpression) : RustRes Unit :=
  match expr with
  | FilterExpression.Function name _ _ =>
    if returnsValue name then
      RustRes.err (LiquidError.typ ("result of " ++ name ++ "() must be compared"))
    else RustRes.ok ()
  | _ => RustRes.ok ()

def ExpressionType.typeName : ExpressionType → String
  | ExpressionType.Logical => "Logical"
  | ExpressionType.Nodes => "Nodes"
  | ExpressionType.Value => "Value"

/-- The `TypeError` message for an ill-typed argument: `argument {idx+1}
of {fn}() must be of a '<Type>' type`. -/
def argTypeErrMsg (idx : Nat) (fn : String) (ty : ExpressionType) : String :=
  "argument " ++ toString (idx + 1) ++ " of " ++ fn ++ "() must be of a "
    ++ squoteStr ++ ty.typeName ++ squoteStr ++ " type"

/-- The per-type argument test of the `assert_well_typed` loop
(`src/lexer.rs` lines 921-955): `Value` uses `is_value_type`, `Logical`
the `matches!` over relative/root queries and `Logical`/`Comparison`
expressions, `Nodes` uses `is_nodes_type`. -/
def arg_ok (ty : ExpressionType) (arg : FilterExpression) : Bool :=
  match ty with
  | ExpressionType.Value => is_value_type arg
  | ExpressionType.Logical =>
    (match arg with
      | FilterExpression.RelativeQuery _ _ => true
      | FilterExpression.RootQuery _ _ => true
      | FilterExpression.Logical _ _ _ _ => true
      | FilterExpression.Comparison _ _ _ _ => true
      | _ => false)
  | ExpressionType.Nodes => is_nodes_type arg

/-- The argument-type loop of `assert_well_typed` (`src/lexer.rs` lines
918-956): `for (idx, typ) in param_types.iter().enumerate()` with
`&args[idx]` (a panic when out of bounds). -/
def check_args (fn : String) (args : List FilterExpression) :
    List ExpressionType → Nat → RustRes Unit
  | [], _ => RustRes.ok ()
  | ty :: tys, idx =>
    match args.get? idx with
    | none => RustRes.crash
    | some arg =>
      if ¬ arg_ok ty arg then RustRes.err (LiquidError.typ (argTypeErrMsg idx fn ty))
      else check_args fn args tys (idx + 1)

/-- The arity-mismatch `TypeError` message of `assert_well_typed`. -/
def arityErrMsg (fn : String) (nparams nargs : Nat) : String :=
  fn ++ "() takes " ++ toString nparams ++ " argument"
    ++ (if 1 < nparams then "s" else "") ++ " but " ++ toString nargs ++ " were given"

/-- `QueryParser::assert_well_typed` from `src/lexer.rs` (lines 892-959). -/
def assert_well_typed (func_name : String) (args : List FilterExpression) :
    RustRes (List FilterExpression) :=
  match standard_functions func_name with
  | none => RustRes.err (LiquidError.nameErr ("unknown function `" ++ func_name ++ "`"))
  | some signature =>
    if args.length ≠ signature.param_types.length then
      RustRes.err (LiquidError.typ (arityErrMsg func_name signature.param_types.length args.length))
    else
      match check_args func_name args signature.param_types 0 with
      | RustRes.ok _ => RustRes.ok args
      | RustRes.err e => RustRes.err e
      | RustRes.crash => RustRes.crash

/-- `QueryParser::parse_i_json_int` from `src/lexer.rs` (lines 827-840).
`index_range` is `(-2^53 + 1)..=(2^53 - 1)` (`QueryParser::new`). -/
def parse_i_json_int (value : String) : RustRes Int :=
  match parseI64? value with
  | none => RustRes.err (LiquidError.synErr ("index out of range `" ++ value ++ "`"))
  | some i =>
    if ¬ (-(2 ^ 53 : Int) + 1 ≤ i ∧ i ≤ 2 ^ 53 - 1) then
      RustRes.err (LiquidError.synErr ("index out of range `" ++ value ++ "`"))
    else RustRes.ok i

/-- The component loop of `parse_slice_selector` (`src/lexer.rs` lines
461-468): `for i in selector.into_inner()`. -/
def slice_loop : List PTree → Option Int → Option Int → Option Int →
    RustRes (Option Int × Option Int × Option Int)
  | [], start, stop, step => RustRes.ok (start, stop, step)
  | i :: rest, start, stop, step =>
    match i.rule with
    | Rule.start =>
      match parse_i_json_int i.text with
      | RustRes.ok v => slice_loop rest (some v) stop step
      | RustRes.err e => RustRes.err e
      | RustRes.crash => RustRes.crash
    | Rule.stop =>
      match parse_i_json_int i.text with
      | RustRes.ok v => slice_loop rest start (some v) step
      | RustRes.err e => RustRes.err e
      | RustRes.crash => RustRes.crash
    | Rule.step =>
      match parse_i_json_int i.text with
      | RustRes.ok v => slice_loop rest start stop (some v)
      | RustRes.err e => RustRes.err e
      | RustRes.crash => RustRes.crash
    | _ => RustRes.crash

/-- `QueryParser::parse_slice_selector` from `src/lexer.rs` (lines
455-476). -/
def parse_slice_selector (t : PTree) : RustRes Selector :=
  match slice_loop t.kids none none none with
  | RustRes.ok (start, stop, step) => RustRes.ok (Selector.Slice start stop step t.span)
  | RustRes.err e => RustRes.err e
  | RustRes.crash => RustRes.crash

/-- The shared body of the three `parse_number` copies, minus the `-0`
special case: the first inner pair is the integer part; an optional second
pair is `frac` (forcing a float) or `exp` (a float when it contains `-`);
an optional third pair is appended and checked for `-` with no rule test.
Returns `(is_float, n)`. -/
def parse_number_core (t : PTree) : RustRes (Bool × String) :=
  match t.kids with
  | [] => RustRes.crash
  | intp :: rest =>
    let after2 : RustRes (Bool × String) :=
      match rest.head? with
      | none => RustRes.ok (false, intp.text)
      | some p =>
        match p.rule with
        | Rule.frac => RustRes.ok (true, intp.text ++ p.text)
        | Rule.exp => RustRes.ok (strContainsMinus p.text, intp.text ++ p.text)
        | _ => RustRes.crash
    match after2 with
    | RustRes.ok (isf, n) =>
      match (rest.drop 1).head? with
      | none => RustRes.ok (isf, n)
      | some p => RustRes.ok (isf || strContainsMinus p.text, n ++ p.text)
    | RustRes.err e => RustRes.err e
    | RustRes.crash => RustRes.crash

/-- `QueryParser::parse_number` from `src/lexer.rs` (lines 663-715),
producing a `FilterExpression`. -/
def qp_parse_number (t : PTree) : RustRes FilterExpression :=
  if t.text = "-0" then RustRes.ok (FilterExpression.Int 0 t.span)
  else
    match parse_number_core t with
    | RustRes.ok (isf, n) =>
      if isf then
        if isF64Shape n then RustRes.ok (FilterExpression.Float n t.span)
        else RustRes.err (LiquidError.synErr "invalid float literal")
      else
        match parseF64TruncI64? n with
        | some v => RustRes.ok (FilterExpression.Int v t.span)
        | none => RustRes.err (LiquidError.synErr "invalid integer literal")
    | RustRes.err e => RustRes.err e
    | RustRes.crash => RustRes.crash

/-! ### The recursive `QueryParser` functions (`src/lexer.rs` lines
374-826)

All functions thread an explicit fuel parameter; every recursive call
spends one unit, and fuel exhaustion is a `crash`.  The wrappers supply
`sizeOf` of the input, which strictly exceeds the recursion depth, so the
fuel-exhaustion branch is unreachable from them. -/

/-- The operator match of `parse_comparison_expression` (`src/lexer.rs`
lines 594-602); an unknown operator text is `unreachable!`. -/
def comparison_op_of (s : String) : RustRes ComparisonOperator :=
  if s = "==" then RustRes.ok ComparisonOperator.Eq
  else if s = "!=" then RustRes.ok ComparisonOperator.Ne
  else if s = "<=" then RustRes.ok ComparisonOperator.Le
  else if s = ">=" then RustRes.ok ComparisonOperator.Ge
  else if s = "<" then RustRes.ok ComparisonOperator.Lt
  else if s = ">" then RustRes.ok ComparisonOperator.Gt
  else RustRes.crash

mutual

/-- Segment-list collection (`segments.map(parse_segment).collect()`). -/
def seg_list : Nat → List PTree → RustRes (List Segment)
  | 0, _ => RustRes.crash
  | _ + 1, [] => RustRes.ok []
  | fuel + 1, t :: ts =>
    match parse_segment fuel t with
    | RustRes.ok s =>
      match seg_list fuel ts with
      | RustRes.ok rest => RustRes.ok (s :: rest)
      | RustRes.err e => RustRes.err e
      | RustRes.crash => RustRes.crash
    | RustRes.err e => RustRes.err e
    | RustRes.crash => RustRes.crash

/-- `QueryParser::parse_segment` from `src/lexer.rs` (lines 384-404). -/
def parse_segment : Nat → PTree → RustRes Segment
  | 0, _ => RustRes.crash
  | fuel + 1, t =>
    match t.rule with
    | Rule.child_segment =>
      match t.kids with
      | [] => RustRes.crash
      | k :: _ =>
        match parse_segment_inner fuel k with
        | RustRes.ok sels => RustRes.ok (Segment.Child sels t.span)
        | RustRes.err e => RustRes.err e
        | RustRes.crash => RustRes.crash
    | Rule.implicit_root_segment =>
      match t.kids with
      | [] => RustRes.crash
      | k :: _ =>
        match parse_segment_inner fuel k with
        | RustRes.ok sels => RustRes.ok (Segment.Child sels t.span)
        | RustRes.err e => RustRes.err e
        | RustRes.crash => RustRes.crash
    | Rule.descendant_segment =>
      match t.kids with
      | [] => RustRes.crash
      | k :: _ =>
        match parse_segment_inner fuel k with
        | RustRes.ok sels => RustRes.ok (Segment.Recursive sels t.span)
        | RustRes.err e => RustRes.err e
        | RustRes.crash => RustRes.crash
    | Rule.name_segment =>
      match t.kids with
      | [] => RustRes.crash
      | k :: _ =>
        match parse_selector fuel k with
        | RustRes.ok sel => RustRes.ok (Segment.Child [sel] t.span)
        | RustRes.err e => RustRes.err e
        | RustRes.crash => RustRes.crash
    | Rule.index_segment =>
      match t.kids with
      | [] => RustRes.crash
      | k :: _ =>
        match parse_selector fuel k with
        | RustRes.ok sel => RustRes.ok (Segment.Child [sel] t.span)
        | RustRes.err e => RustRes.err e
        | RustRes.crash => RustRes.crash
    | Rule.implicit_root_name_segment =>
      match t.kids with
      | [] => RustRes.crash
      | k :: _ =>
        match parse_selector fuel k with
        | RustRes.ok sel => RustRes.ok (Segment.Child [sel] t.span)
        | RustRes.err e => RustRes.err e
        | RustRes.crash => RustRes.crash
    | Rule.EOI => RustRes.ok Segment.Eoi
    | _ => RustRes.crash

/-- `QueryParser::parse_segment_inner` from `src/lexer.rs` (lines
406-424). -/
def parse_segment_inner : Nat → PTree → RustRes (List Selector)
  | 0, _ => RustRes.crash
  | fuel + 1, t =>
    match t.rule with
    | Rule.bracketed_selection => sel_list fuel t.kids
    | Rule.wildcard_selector => RustRes.ok [Selector.Wild t.span]
    | Rule.member_name_shorthand => RustRes.ok [Selector.Name t.text t.span]
    | _ => RustRes.crash

/-- Selector-list collection inside `bracketed_selection`. -/
def sel_list : Nat → List PTree → RustRes (List Selector)
  | 0, _ => RustRes.crash
  | _ + 1, [] => RustRes.ok []
  | fuel + 1, t :: ts =>
    match parse_selector fuel t with
    | RustRes.ok s =>
      match sel_list fuel ts with
      | RustRes.ok rest => RustRes.ok (s :: rest)
      | RustRes.err e => RustRes.err e
      | RustRes.crash => RustRes.crash
    | RustRes.err e => RustRes.err e
    | RustRes.crash => RustRes.crash

/-- `QueryParser::parse_selector` from `src/lexer.rs` (lines 426-453). -/
def parse_selector : Nat → PTree → RustRes Selector
  | 0, _ => RustRes.crash
  | fuel + 1, t =>
    match t.rule with
    | Rule.double_quoted =>
      match unescape t.text with
      | RustRes.ok name => RustRes.ok (Selector.Name name t.span)
      | RustRes.err e => RustRes.err e
      | RustRes.crash => RustRes.crash
    | Rule.single_quoted =>
      match unescape (t.text.replace escSquoteStr squoteStr) with
      | RustRes.ok name => RustRes.ok (Selector.Name name t.span)
      | RustRes.err e => RustRes.err e
      | RustRes.crash => RustRes.crash
    | Rule.wildcard_selector => RustRes.ok (Selector.Wild t.span)
    | Rule.slice_selector => parse_slice_selector t
    | Rule.index_selector =>
      match parse_i_json_int t.text with
      | RustRes.ok i => RustRes.ok (Selector.Index i t.span)
      | RustRes.err e => RustRes.err e
      | RustRes.crash => RustRes.crash
    | Rule.filter_selector => parse_filter_selector fuel t
    | Rule.member_name_shorthand => RustRes.ok (Selector.Name t.text t.span)
    | Rule.singular_query_selector => parse_singular_query_selector fuel t
    | _ => RustRes.crash

/-- `QueryParser::parse_filter_selector` from `src/lexer.rs` (lines
478-486): the logical-or expression is parsed with `assert_compared`
**on**. -/
def parse_filter_selector : Nat → PTree → RustRes Selector
  | 0, _ => RustRes.crash
  | fuel + 1, t =>
    match t.kids with
    | [] => RustRes.crash
    | k :: _ =>
      match parse_logical_or_expression fuel k true with
      | RustRes.ok e => RustRes.ok (Selector.Filter e t.span)
      | RustRes.err e => RustRes.err e
      | RustRes.crash => RustRes.crash

/-- `QueryParser::parse_singular_query_selector` from `src/lexer.rs`
(lines 488-501). -/
def parse_singular_query_selector : Nat → PTree → RustRes Selector
  | 0, _ => RustRes.crash
  | fuel + 1, t =>
    match seg_list fuel t.kids with
    | RustRes.ok segs => RustRes.ok (Selector.SingularQuery segs t.span)
    | RustRes.err e => RustRes.err e
    | RustRes.crash => RustRes.crash

/-- `QueryParser::parse_logical_or_expression` from `src/lexer.rs` (lines
503-530). -/
def parse_logical_or_expression : Nat → PTree → Bool → RustRes FilterExpression
  | 0, _, _ => RustRes.crash
  | fuel + 1, t, ac =>
    match t.kids with
    | [] => RustRes.crash
    | k :: rest =>
      match parse_logical_and_expression fuel k ac with
      | RustRes.ok or_expr =>
        match (if ac then assert_compared or_expr else RustRes.ok ()) with
        | RustRes.ok _ => or_loop fuel rest or_expr ac
        | RustRes.err e => RustRes.err e
        | RustRes.crash => RustRes.crash
      | RustRes.err e => RustRes.err e
      | RustRes.crash => RustRes.crash

/-- The `for and_expr in it` loop of `parse_logical_or_expression`. -/
def or_loop : Nat → List PTree → FilterExpression → Bool → RustRes FilterExpression
  | 0, _, _, _ => RustRes.crash
  | _ + 1, [], acc, _ => RustRes.ok acc
  | fuel + 1, and_expr :: rest, acc, ac =>
    match parse_logical_and_expression fuel and_expr ac with
    | RustRes.ok right =>
      match (if ac then assert_compared right else RustRes.ok ()) with
      | RustRes.ok _ =>
        or_loop fuel rest
          (FilterExpression.Logical acc LogicalOperator.Or right and_expr.span) ac
      | RustRes.err e => RustRes.err e
      | RustRes.crash => RustRes.crash
    | RustRes.err e => RustRes.err e
    | RustRes.crash => RustRes.crash

/-- `QueryParser::parse_logical_and_expression` from `src/lexer.rs` (lines
532-561). -/
def parse_logical_and_expression : Nat → PTree → Bool → RustRes FilterExpression
  | 0, _, _ => RustRes.crash
  | fuel + 1, t, ac =>
    match t.kids with
    | [] => RustRes.crash
    | k :: rest =>
      match parse_basic_expression fuel k with
      | RustRes.ok and_expr =>
        match (if ac then assert_compared and_expr else RustRes.ok ()) with
        | RustRes.ok _ => and_loop fuel rest and_expr t.span ac
        | RustRes.err e => RustRes.err e
        | RustRes.crash => RustRes.crash
      | RustRes.err e => RustRes.err e
      | RustRes.crash => RustRes.crash

/-- The `for basic_expr in it` loop of `parse_logical_and_expression`;
every `Logical` node it builds carries the and-pair's span. -/
def and_loop : Nat → List PTree → FilterExpression → Nat × Nat → Bool →
    RustRes FilterExpression
  | 0, _, _, _, _ => RustRes.crash
  | _ + 1, [], acc, _, _ => RustRes.ok acc
  | fuel + 1, basic :: rest, acc, span, ac =>
    match parse_basic_expression fuel basic with
    | RustRes.ok right =>
      match (if ac then assert_compared right else RustRes.ok ()) with
      | RustRes.ok _ =>
        and_loop fuel rest
          (FilterExpression.Logical acc LogicalOperator.And right span) span ac
      | RustRes.err e => RustRes.err e
      | RustRes.crash => RustRes.crash
    | RustRes.err e => RustRes.err e
    | RustRes.crash => RustRes.crash

/-- `QueryParser::parse_basic_expression` from `src/lexer.rs` (lines
563-570). -/
def parse_basic_expression : Nat → PTree → RustRes FilterExpression
  | 0, _ => RustRes.crash
  | fuel + 1, t =>
    match t.rule with
    | Rule.paren_expr => parse_paren_expression fuel t
    | Rule.comparison_expr => parse_comparison_expression fuel t
    | Rule.test_expr => parse_test_expression fuel t
    | _ => RustRes.crash

/-- `QueryParser::parse_paren_expression` from `src/lexer.rs` (lines
572-583). -/
def parse_paren_expression : Nat → PTree → RustRes FilterExpression
  | 0, _ => RustRes.crash
  | fuel + 1, t =>
    match t.kids with
    | [] => RustRes.crash
    | p :: rest =>
      match p.rule with
      | Rule.logical_not_op =>
        match rest with
        | [] => RustRes.crash
        | q :: _ =>
          match parse_logical_or_expression fuel q true with
          | RustRes.ok e => RustRes.ok (FilterExpression.Not e p.span)
          | RustRes.err e => RustRes.err e
          | RustRes.crash => RustRes.crash
      | Rule.logical_or_expr => parse_logical_or_expression fuel p true
      | _ => RustRes.crash

/-- `QueryParser::parse_comparison_expression` from `src/lexer.rs` (lines
585-614): both operands are parsed, then `assert_comparable` runs on the
left and then the right. -/
def parse_comparison_expression : Nat → PTree → RustRes FilterExpression
  | 0, _ => RustRes.crash
  | fuel + 1, t =>
    match t.kids with
    | l :: o :: r :: _ =>
      match parse_comparable fuel l with
      | RustRes.ok left =>
        match comparison_op_of o.text with
        | RustRes.ok operator =>
          match parse_comparable fuel r with
          | RustRes.ok right =>
            match assert_comparable left with
            | RustRes.ok _ =>
              match assert_comparable right with
              | RustRes.ok _ =>
                RustRes.ok (FilterExpression.Comparison left operator right l.span)
              | RustRes.err e => RustRes.err e
              | RustRes.crash => RustRes.crash
            | RustRes.err e => RustRes.err e
            | RustRes.crash => RustRes.crash
          | RustRes.err e => RustRes.err e
          | RustRes.crash => RustRes.crash
        | RustRes.err e => RustRes.err e
        | RustRes.crash => RustRes.crash
      | RustRes.err e => RustRes.err e
      | RustRes.crash => RustRes.crash
    | _ => RustRes.crash

/-- `QueryParser::parse_comparable` from `src/lexer.rs` (lines 616-661). -/
def parse_comparable : Nat → PTree → RustRes FilterExpression
  | 0, _ => RustRes.crash
  | fuel + 1, t =>
    match t.rule with
    | Rule.number => qp_parse_number t
    | Rule.double_quoted =>
      match unescape t.text with
      | RustRes.ok v => RustRes.ok (FilterExpression.StringLiteral v t.span)
      | RustRes.err e => RustRes.err e
      | RustRes.crash => RustRes.crash
    | Rule.single_quoted =>
      match unescape (t.text.replace escSquoteStr squoteStr) with
      | RustRes.ok v => RustRes.ok (FilterExpression.StringLiteral v t.span)
      | RustRes.err e => RustRes.err e
      | RustRes.crash => RustRes.crash
    | Rule.true_literal => RustRes.ok (FilterExpression.True_ t.span)
    | Rule.false_literal => RustRes.ok (FilterExpression.False_ t.span)
    | Rule.null => RustRes.ok (FilterExpression.Null t.span)
    | Rule.rel_singular_query =>
      match seg_list fuel t.kids with
      | RustRes.ok segs => RustRes.ok (FilterExpression.RelativeQuery segs t.span)
      | RustRes.err e => RustRes.err e
      | RustRes.crash => RustRes.crash
    | Rule.abs_singular_query =>
      match seg_list fuel t.kids with
      | RustRes.ok segs => RustRes.ok (FilterExpression.RootQuery segs t.span)
      | RustRes.err e => RustRes.err e
      | RustRes.crash => RustRes.crash
    | Rule.function_expr => parse_function_expression fuel t
    | _ => RustRes.crash

/-- `QueryParser::parse_test_expression` from `src/lexer.rs` (lines
717-727). -/
def parse_test_expression : Nat → PTree → RustRes FilterExpression
  | 0, _ => RustRes.crash
  | fuel + 1, t =>
    match t.kids with
    | [] => RustRes.crash
    | p :: rest =>
      match p.rule with
      | Rule.logical_not_op =>
        match rest with
        | [] => RustRes.crash
        | q :: _ =>
          match parse_test_expression_inner fuel q with
          | RustRes.ok e => RustRes.ok (FilterExpression.Not e p.span)
          | RustRes.err e => RustRes.err e
          | RustRes.crash => RustRes.crash
      | _ => parse_test_expression_inner fuel p

/-- `QueryParser::parse_test_expression_inner` from `src/lexer.rs` (lines
729-764). -/
def parse_test_expression_inner : Nat → PTree → RustRes FilterExpression
  | 0, _ => RustRes.crash
  | fuel + 1, t =>
    match t.rule with
    | Rule.rel_query =>
      match seg_list fuel t.kids with
      | RustRes.ok segs => RustRes.ok (FilterExpression.RelativeQuery segs t.span)
      | RustRes.err e => RustRes.err e
      | RustRes.crash => RustRes.crash
    | Rule.root_query =>
      match seg_list fuel t.kids with
      | RustRes.ok segs => RustRes.ok (FilterExpression.RootQuery segs t.span)
      | RustRes.err e => RustRes.err e
      | RustRes.crash => RustRes.crash
    | Rule.function_expr => parse_function_expression fuel t
    | _ => RustRes.crash

/-- `QueryParser::parse_function_expression` from `src/lexer.rs` (lines
766-778): the parsed arguments are passed through `assert_well_typed`. -/
def parse_function_expression : Nat → PTree → RustRes FilterExpression
  | 0, _ => RustRes.crash
  | fuel + 1, t =>
    match t.kids with
    | [] => RustRes.crash
    | p :: rest =>
      match arg_list fuel rest with
      | RustRes.ok args =>
        match assert_well_typed p.text args with
        | RustRes.ok args2 => RustRes.ok (FilterExpression.Function p.text args2 p.span)
        | RustRes.err e => RustRes.err e
        | RustRes.crash => RustRes.crash
      | RustRes.err e => RustRes.err e
      | RustRes.crash => RustRes.crash

/-- Argument-list collection (`it.map(parse_function_argument)`). -/
def arg_list : Nat → List PTree → RustRes (List FilterExpression)
  | 0, _ => RustRes.crash
  | _ + 1, [] => RustRes.ok []
  | fuel + 1, t :: ts =>
    match parse_function_argument fuel t with
    | RustRes.ok a =>
      match arg_list fuel ts with
      | RustRes.ok rest => RustRes.ok (a :: rest)
      | RustRes.err e => RustRes.err e
      | RustRes.crash => RustRes.crash
    | RustRes.err e => RustRes.err e
    | RustRes.crash => RustRes.crash

/-- `QueryParser::parse_function_argument` from `src/lexer.rs` (lines
780-825): note that a `logical_or_expr` argument is parsed with
`assert_compared` **off**. -/
def parse_function_argument : Nat → PTree → RustRes FilterExpression
  | 0, _ => RustRes.crash
  | fuel + 1, t =>
    match t.rule with
    | Rule.number => qp_parse_number t
    | Rule.double_quoted =>
      match unescape t.text with
      | RustRes.ok v => RustRes.ok (FilterExpression.StringLiteral v t.span)
      | RustRes.err e => RustRes.err e
      | RustRes.crash => RustRes.crash
    | Rule.single_quoted =>
      match unescape (t.text.replace escSquoteStr squoteStr) with
      | RustRes.ok v => RustRes.ok (FilterExpression.StringLiteral v t.span)
      | RustRes.err e => RustRes.err e
      | RustRes.crash => RustRes.crash
    | Rule.true_literal => RustRes.ok (FilterExpression.True_ t.span)
    | Rule.false_literal => RustRes.ok (FilterExpression.False_ t.span)
    | Rule.null => RustRes.ok (FilterExpression.Null t.span)
    | Rule.rel_query =>
      match seg_list fuel t.kids with
      | RustRes.ok segs => RustRes.ok (FilterExpression.RelativeQuery segs t.span)
      | RustRes.err e => RustRes.err e
      | RustRes.crash => RustRes.crash
    | Rule.root_query =>
      match seg_list fuel t.kids with
      | RustRes.ok segs => RustRes.ok (FilterExpression.RootQuery segs t.span)
      | RustRes.err e => RustRes.err e
      | RustRes.crash => RustRes.crash
    | Rule.logical_or_expr => parse_logical_or_expression fuel t false
    | Rule.function_expr => parse_function_expression fuel t
    | _ => RustRes.crash

end

mutual
/-- Total node count of a pair tree (an upper bound on parse recursion
depth, used as fuel by the wrappers). -/
def PTree.size : PTree → Nat
  | PTree.node _ _ _ kids => 1 + PTree.sizeList kids
def PTree.sizeList : List PTree → Nat
  | [] => 0
  | t :: ts => PTree.size t + PTree.sizeList ts
end

/-- `QueryParser::parse` from `src/lexer.rs` (lines 374-382). -/
def QueryParser.parse (segments : List PTree) : RustRes Query :=
  match seg_list (PTree.sizeList segments + 1) segments with
  | RustRes.ok segs => RustRes.ok ⟨segs⟩
  | RustRes.err e => RustRes.err e
  | RustRes.crash => RustRes.crash

/-! ### Claim-side characterizations of the static type rules -/

/-- The claim's wording of a singular query: every segment is a `Child`
with exactly one selector, that selector a `Name` or an `Index`. -/
def SingularSpec (segs : List Segment) : Prop :=
  ∀ seg ∈ segs, ∃ sel sp, seg = Segment.Child [sel] sp ∧
    ((∃ nm spn, sel = Selector.Name nm spn) ∨ (∃ i spn, sel = Selector.Index i spn))

theorem segmentsSingular_iff (segs : List Segment) :
    segmentsSingular segs = true ↔ SingularSpec segs := by
  unfold segmentsSingular SingularSpec
  rw [List.all_eq_true]
  constructor
  · intro h seg hseg
    have hs := h seg hseg
    cases seg with
    | Child selectors sp =>
      simp only [Bool.and_eq_true, beq_iff_eq] at hs
      obtain ⟨hlen, hhead⟩ := hs
      obtain ⟨sel, rfl⟩ := List.length_eq_one.mp hlen
      refine ⟨sel, sp, rfl, ?_⟩
      cases sel with
      | Name nm spn => exact Or.inl ⟨nm, spn, rfl⟩
      | Index i spn => exact Or.inr ⟨i, spn, rfl⟩
      | Slice a b c spn => simp at hhead
      | Wild spn => simp at hhead
      | Filter f spn => simp at hhead
      | SingularQuery q spn => simp at hhead
    | Recursive selectors sp => simp at hs
    | Eoi => simp at hs
  · intro h seg hseg
    obtain ⟨sel, sp, rfl, hsel⟩ := h seg hseg
    rcases hsel with ⟨nm, spn, rfl⟩ | ⟨i, spn, rfl⟩ <;> simp

/-- Claim-side `Value` argument rule: a literal, a singular query, or a
`Value`-returning function call. -/
def ValueArgSpec (e : FilterExpression) : Prop :=
  e.is_literal = true
    ∨ (∃ q sp, (e = FilterExpression.RelativeQuery q sp ∨ e = FilterExpression.RootQuery q sp)
        ∧ SingularSpec q)
    ∨ (∃ nm args sp, e = FilterExpression.Function nm args sp ∧ returnsValue nm = true)

/-- Claim-side `Logical` argument rule: a relative/root query or a
`Logical`/`Comparison` expression. -/
def LogicalArgSpec (e : FilterExpression) : Prop :=
  (∃ q sp, e = FilterExpression.RelativeQuery q sp ∨ e = FilterExpression.RootQuery q sp)
    ∨ (∃ l op r sp, e = FilterExpression.Logical l op r sp)
    ∨ (∃ l op r sp, e = FilterExpression.Comparison l op r sp)

/-- Does the registry give `name` return type `Nodes`? -/
def returnsNodes (name : String) : Bool :=
  match standard_functions name with
  | some sig => sig.return_type = ExpressionType.Nodes
  | none => false

/-- Claim-side `Nodes` argument rule: a relative/root query or a
`Nodes`-returning function call. -/
def NodesArgSpec (e : FilterExpression) : Prop :=
  (∃ q sp, e = FilterExpression.RelativeQuery q sp ∨ e = FilterExpression.RootQuery q sp)
    ∨ (∃ nm args sp, e = FilterExpression.Function nm args sp ∧ returnsNodes nm = true)

/-- Claim-side argument rule per declared parameter kind. -/
def ArgSpec (ty : ExpressionType) (e : FilterExpression) : Prop :=
  match ty with
  | ExpressionType.Value => ValueArgSpec e
  | ExpressionType.Logical => LogicalArgSpec e
  | ExpressionType.Nodes => NodesArgSpec e

theorem arg_ok_iff (ty : ExpressionType) (e : FilterExpression) :
    arg_ok ty e = true ↔ ArgSpec ty e := by
  cases ty <;> cases e <;>
    simp [arg_ok, ArgSpec, ValueArgSpec, LogicalArgSpec, NodesArgSpec, is_value_type,
      is_nodes_type, returnsNodes, FilterExpression.is_literal, segmentsSingular_iff]

theorem check_args_spec (fn : String) (args : List FilterExpression) :
    ∀ (tys : List ExpressionType) (idx : Nat),
      (∀ j, j < tys.length → idx + j < args.length) →
      ((check_args fn args tys idx = RustRes.ok () ↔
          ∀ j ty a, tys[j]? = some ty → args[idx + j]? = some a → arg_ok ty a = true)
        ∧ ∀ j ty a, tys[j]? = some ty → args[idx + j]? = some a →
            arg_ok ty a = false →
            (∀ j' ty' a', j' < j → tys[j']? = some ty' → args[idx + j']? = some a' →
              arg_ok ty' a' = true) →
            check_args fn args tys idx
              = RustRes.err (LiquidError.typ (argTypeErrMsg (idx + j) fn ty))) := by
  intro tys
  induction tys with
  | nil =>
    intro idx hbound
    constructor
    · simp [check_args]
    · intro j ty a hty
      simp at hty
  | cons ty tys ih =>
    intro idx hbound
    have hidx : idx < args.length := by
      have := hbound 0 (by simp)
      omega
    obtain ⟨arg, harg⟩ : ∃ a, args[idx]? = some a := by
      rw [List.getElem?_eq_getElem hidx]
      exact ⟨_, rfl⟩
    have hbound' : ∀ j, j < tys.length → (idx + 1) + j < args.length := by
      intro j hj
      have := hbound (j + 1) (by simp; omega)
      omega
    obtain ⟨ihok, iherr⟩ := ih (idx + 1) hbound'
    by_cases hok : arg_ok ty arg = true
    · have hstep : check_args fn args (ty :: tys) idx = check_args fn args tys (idx + 1) := by
        simp [check_args, harg, hok]
      constructor
      · rw [hstep, ihok]
        constructor
        · intro h j tyj a htyj haj
          match j, htyj with
          | 0, htyj =>
            simp at htyj
            subst htyj
            rw [Nat.add_zero] at haj
            rw [harg] at haj
            cases haj
            exact hok
          | j + 1, htyj =>
            simp at htyj
            refine h j tyj a htyj ?_
            rw [show idx + 1 + j = idx + (j + 1) by omega]
            exact haj
        · intro h j tyj a htyj haj
          refine h (j + 1) tyj a (by simpa using htyj) ?_
          rw [show idx + (j + 1) = idx + 1 + j by omega]
          exact haj
      · intro j tyj a htyj haj hbad hprev
        match j, htyj with
        | 0, htyj =>
          simp at htyj
          subst htyj
          rw [Nat.add_zero] at haj
          rw [harg] at haj
          cases haj
          rw [hok] at hbad
          cases hbad
        | j + 1, htyj =>
          simp at htyj
          rw [hstep]
          have := iherr j tyj a htyj
            (by rw [show idx + 1 + j = idx + (j + 1) by omega]; exact haj) hbad
            (fun j' ty' a' hj' hty' ha' =>
              hprev (j' + 1) ty' a' (by omega) (by simpa using hty')
                (by rw [show idx + (j' + 1) = idx + 1 + j' by omega]; exact ha'))
          rw [show idx + (j + 1) = idx + 1 + j by omega]
          exact this
    · have hbadB : arg_ok ty arg = false := by
        cases h : arg_ok ty arg
        · rfl
        · exact absurd h hok
      have hstep : check_args fn args (ty :: tys) idx
          = RustRes.err (LiquidError.typ (argTypeErrMsg idx fn ty)) := by
        simp [check_args, harg, hbadB]
      constructor
      · rw [hstep]
        constructor
        · intro h
          cases h
        · intro h
          have := h 0 ty arg (by simp) (by simpa using harg)
          rw [hbadB] at this
          cases this
      · intro j tyj a htyj haj hbad hprev
        match j, htyj with
        | 0, htyj =>
          simp at htyj
          subst htyj
          rw [Nat.add_zero] at haj
          rw [harg] at haj
          cases haj
          simpa using hstep
        | j + 1, htyj =>
          have := hprev 0 ty arg (by omega) (by simp) (by simpa using harg)
          rw [hbadB] at this
          cases this

/-- **C4** — Well-typed function calls in JSONPath filters
(`QueryParser::assert_well_typed`, `src/lexer.rs` lines 892-1001): the
registry holds exactly `count`, `length`, `match`, `search`, `value`; a
call to a name outside it yields a `NameError`; a call with an argument
count different from the signature yields a `TypeError` with the arity
message; with matching counts, the call is accepted exactly when every
argument satisfies its declared parameter kind (`Value`: a literal, a
singular query, or a `Value`-returning call; `Logical`: a relative/root
query or a `Logical`/`Comparison` expression; `Nodes`: a relative/root
query or a `Nodes`-returning call), and the first argument violating its
kind is named, by index, in a `TypeError`. -/
theorem C4_function_call_typing (func_name : String) (args : List FilterExpression) :
    ((standard_functions func_name).isSome = true ↔
        func_name ∈ ["count", "length", "match", "search", "value"])
    ∧ (∀ ty a, arg_ok ty a = true ↔ ArgSpec ty a)
    ∧ (standard_functions func_name = none →
        assert_well_typed func_name args
          = RustRes.err (LiquidError.nameErr ("unknown function `" ++ func_name ++ "`")))
    ∧ (∀ sig, standard_functions func_name = some sig →
        args.length ≠ sig.param_types.length →
        assert_well_typed func_name args
          = RustRes.err (LiquidError.typ
              (arityErrMsg func_name sig.param_types.length args.length)))
    ∧ (∀ sig, standard_functions func_name = some sig →
        args.length = sig.param_types.length →
        ((assert_well_typed func_name args = RustRes.ok args ↔
            ∀ (j : Nat) ty a, sig.param_types[j]? = some ty → args[j]? = some a → ArgSpec ty a)
          ∧ ∀ (j : Nat) ty a, sig.param_types[j]? = some ty → args[j]? = some a →
              ¬ ArgSpec ty a →
              (∀ (j' : Nat) ty' a', j' < j → sig.param_types[j']? = some ty' →
                args[j']? = some a' → ArgSpec ty' a') →
              assert_well_typed func_name args
                = RustRes.err (LiquidError.typ (argTypeErrMsg j func_name ty)))) := by
  refine ⟨?_, fun ty a => arg_ok_iff ty a, ?_, ?_, ?_⟩
  · simp only [standard_functions]
    split_ifs with h1 h2 h3 h4 h5 <;> simp_all
  · intro h
    simp [assert_well_typed, h]
  · intro sig hsig hne
    simp only [assert_well_typed, hsig]
    rw [if_pos hne]
  · intro sig hsig heq
    have hbound : ∀ j, j < sig.param_types.length → 0 + j < args.length := by
      intro j hj
      omega
    obtain ⟨hok_iff, herr⟩ := check_args_spec func_name args sig.param_types 0 hbound
    have hshape : ∀ r, check_args func_name args sig.param_types 0 = r →
        assert_well_typed func_name args
          = (match r with
              | RustRes.ok _ => RustRes.ok args
              | RustRes.err e => RustRes.err e
              | RustRes.crash => RustRes.crash) := by
      intro r hr
      simp only [assert_well_typed, hsig]
      rw [if_neg (by omega), hr]
    constructor
    · constructor
      · intro h j ty a hty ha
        rcases hr : check_args func_name args sig.param_types 0 with _ | e | _
        · exact (arg_ok_iff ty a).mp
            ((hok_iff.mp hr) j ty a hty (by simpa using ha))
        · rw [hshape _ hr] at h
          cases h
        · rw [hshape _ hr] at h
          cases h
      · intro h
        have : check_args func_name args sig.param_types 0 = RustRes.ok () :=
          hok_iff.mpr (fun j ty a hty ha =>
            (arg_ok_iff ty a).mpr (h j ty a hty (by simpa using ha)))
        rw [hshape _ this]
    · intro j ty a hty ha hbad hprev
      have hbadB : arg_ok ty a = false := by
        cases h : arg_ok ty a
        · rfl
        · exact absurd ((arg_ok_iff ty a).mp h) hbad
      have := herr j ty a hty (by simpa using ha) hbadB
        (fun j' ty' a' hj' hty' ha' =>
          (arg_ok_iff ty' a').mpr (hprev j' ty' a' hj' hty' (by simpa using ha')))
      rw [hshape _ this]
      simp

/-- Witness for C4: `nosuch` is a `NameError`; `count()` with no argument
is an arity `TypeError`; `length(true)` is accepted; `count(true)` is a
`TypeError` naming argument 1. -/
theorem C4_function_call_typing_witness :
    assert_well_typed "nosuch" []
        = RustRes.err (LiquidError.nameErr ("unknown function `" ++ "nosuch" ++ "`"))
    ∧ assert_well_typed "count" []
        = RustRes.err (LiquidError.typ (arityErrMsg "count" 1 0))
    ∧ assert_well_typed "length" [FilterExpression.True_ (0, 0)]
        = RustRes.ok [FilterExpression.True_ (0, 0)]
    ∧ assert_well_typed "count" [FilterExpression.True_ (0, 0)]
        = RustRes.err (LiquidError.typ (argTypeErrMsg 0 "count" ExpressionType.Nodes)) := by
  refine ⟨(C4_function_call_typing "nosuch" []).2.2.1 rfl,
    (C4_function_call_typing "count" []).2.2.2.1 ⟨[ExpressionType.Nodes], ExpressionType.Value⟩
      rfl (by decide),
    ((C4_function_call_typing "length" [FilterExpression.True_ (0, 0)]).2.2.2.2
        ⟨[ExpressionType.Value], ExpressionType.Value⟩ rfl rfl).1.mpr ?_,
    (C4_function_call_typing "count" [FilterExpression.True_ (0, 0)]).2.2.2.2
        ⟨[ExpressionType.Nodes], ExpressionType.Value⟩ rfl rfl |>.2 0
        ExpressionType.Nodes (FilterExpression.True_ (0, 0)) rfl rfl
        (by simp [ArgSpec, NodesArgSpec]) (by omega)⟩
  intro j ty a hty ha
  match j, hty, ha with
  | 0, hty, ha =>
    simp at hty ha
    subst hty
    subst ha
    exact Or.inl rfl

/-- **C5** — Comparison-operand "comparable" rule
(`QueryParser::assert_comparable`, lines 841-870, and
`parse_comparison_expression`, lines 585-614, of `src/lexer.rs`): literal
operands are always accepted; a relative or root query operand is accepted
exactly when it is singular and otherwise yields the non-singular
`TypeError`; a function-call operand is accepted exactly when its return
type is `Value` and otherwise yields the not-comparable `TypeError`; and
after both operands of a comparison parse, `assert_comparable` runs on the
left and then the right operand, the comparison succeeding only when both
pass. -/
theorem C5_comparison_comparable :
    (∀ e : FilterExpression, e.is_literal = true → assert_comparable e = RustRes.ok ())
    ∧ (∀ q sp,
        (assert_comparable (FilterExpression.RelativeQuery q sp) = RustRes.ok ()
            ↔ SingularSpec q)
        ∧ (assert_comparable (FilterExpression.RootQuery q sp) = RustRes.ok ()
            ↔ SingularSpec q)
        ∧ (¬ SingularSpec q →
            assert_comparable (FilterExpression.RelativeQuery q sp)
              = RustRes.err (LiquidError.typ "non-singular query is not comparable")
            ∧ assert_comparable (FilterExpression.RootQuery q sp)
              = RustRes.err (LiquidError.typ "non-singular query is not comparable")))
    ∧ (∀ nm args sp,
        (assert_comparable (FilterExpression.Function nm args sp) = RustRes.ok ()
            ↔ returnsValue nm = true)
        ∧ (returnsValue nm = false →
            assert_comparable (FilterExpression.Function nm args sp)
              = RustRes.err
                  (LiquidError.typ ("result of " ++ nm ++ "() is not comparable"))))
    ∧ (∀ (fuel : Nat) (t l o r : PTree) (rest : List PTree)
        (left op right : _),
        t.kids = l :: o :: r :: rest →
        parse_comparable fuel l = RustRes.ok left →
        comparison_op_of o.text = RustRes.ok op →
        parse_comparable fuel r = RustRes.ok right →
        parse_comparison_expression (fuel + 1) t
          = match assert_comparable left with
            | RustRes.ok _ =>
              (match assert_comparable right with
                | RustRes.ok _ =>
                  RustRes.ok (FilterExpression.Comparison left op right l.span)
                | RustRes.err e => RustRes.err e
                | RustRes.crash => RustRes.crash)
            | RustRes.err e => RustRes.err e
            | RustRes.crash => RustRes.crash) := by
  refine ⟨?_, ?_, ?_, ?_⟩
  · intro e he
    cases e <;> simp [FilterExpression.is_literal] at he <;> rfl
  · intro q sp
    refine ⟨?_, ?_, ?_⟩
    · rw [← segmentsSingular_iff]
      simp [assert_comparable]
    · rw [← segmentsSingular_iff]
      simp [assert_comparable]
    · intro hq
      rw [← segmentsSingular_iff] at hq
      simp at hq
      constructor <;> simp [assert_comparable, hq]
  · intro nm args sp
    constructor
    · cases h : returnsValue nm <;> simp [assert_comparable, h]
    · intro h
      simp [assert_comparable, h]
  · intro fuel t l o r rest left op right hkids hl hop hr
    simp only [parse_comparison_expression, hkids, hl, hop, hr]

/-- Witness for C5: literal, singular-query, non-singular-query,
`Value`-returning and `Logical`-returning operands behave as stated, and
the parse tree of `true == true` parses to a comparison. -/
theorem C5_comparison_comparable_witness :
    assert_comparable (FilterExpression.True_ (0, 4)) = RustRes.ok ()
    ∧ assert_comparable
        (FilterExpression.RelativeQuery [Segment.Child [Selector.Name "a" (1, 2)] (1, 2)] (0, 2))
        = RustRes.ok ()
    ∧ assert_comparable
        (FilterExpression.RelativeQuery [Segment.Child [Selector.Wild (1, 2)] (1, 2)] (0, 2))
        = RustRes.err (LiquidError.typ "non-singular query is not comparable")
    ∧ assert_comparable (FilterExpression.Function "count" [] (0, 5))
        = RustRes.ok ()
    ∧ assert_comparable (FilterExpression.Function "match" [] (0, 5))
        = RustRes.err (LiquidError.typ ("result of " ++ "match" ++ "() is not comparable"))
    ∧ parse_comparison_expression 2
        (PTree.node Rule.comparison_expr "true == true" (0, 12)
          [PTree.node Rule.true_literal "true" (0, 4) [],
            PTree.node Rule.symbol "==" (5, 7) [],
            PTree.node Rule.true_literal "true" (8, 12) []])
        = RustRes.ok
            (FilterExpression.Comparison (FilterExpression.True_ (0, 4))
              ComparisonOperator.Eq (FilterExpression.True_ (8, 12)) (0, 4)) := by
  refine ⟨C5_comparison_comparable.1 (FilterExpression.True_ (0, 4)) rfl,
    (C5_comparison_comparable.2.1 [Segment.Child [Selector.Name "a" (1, 2)] (1, 2)] (0, 2)).1.mpr ?_,
    ((C5_comparison_comparable.2.1 [Segment.Child [Selector.Wild (1, 2)] (1, 2)] (0, 2)).2.2 ?_).1,
    (C5_comparison_comparable.2.2.1 "count" [] (0, 5)).1.mpr rfl,
    (C5_comparison_comparable.2.2.1 "match" [] (0, 5)).2 rfl, ?_⟩
  · intro seg hseg
    simp at hseg
    subst hseg
    exact ⟨Selector.Name "a" (1, 2), (1, 2), rfl, Or.inl ⟨"a", (1, 2), rfl⟩⟩
  · intro h
    obtain ⟨sel, spn, hs, hshape⟩ := h (Segment.Child [Selector.Wild (1, 2)] (1, 2)) (by simp)
    rcases hshape with ⟨nm, spn2, hnm⟩ | ⟨i, spn2, hi⟩ <;> simp_all
  · rw [C5_comparison_comparable.2.2.2 1
      (PTree.node Rule.comparison_expr "true == true" (0, 12)
        [PTree.node Rule.true_literal "true" (0, 4) [],
          PTree.node Rule.symbol "==" (5, 7) [],
          PTree.node Rule.true_literal "true" (8, 12) []])
      (PTree.node Rule.true_literal "true" (0, 4) [])
      (PTree.node Rule.symbol "==" (5, 7) [])
      (PTree.node Rule.true_literal "true" (8, 12) []) []
      (FilterExpression.True_ (0, 4)) ComparisonOperator.Eq
      (FilterExpression.True_ (8, 12)) rfl rfl rfl rfl]
    rfl

/-- **C9** — I-JSON bounds on query integers
(`QueryParser::parse_i_json_int`, lines 827-840, `parse_slice_selector`,
lines 455-476, and the `index_selector` arm of `parse_selector` in
`src/lexer.rs`): a numeral denoting an integer in
[-(2^53 - 1), 2^53 - 1] parses to that value; one denoting an integer
outside the range, or not parseable as `i64`, yields the
index-out-of-range `SyntaxError`; the index selector and every slice
component go through this check, and accepted slice components — a step of
0 included — are preserved unchanged in the resulting `Selector.Slice`. -/
theorem C9_i_json_bounds :
    (∀ s : String,
        parse_i_json_int s
          = match decValue? s with
            | some n =>
              if -(2 ^ 53 : Int) + 1 ≤ n ∧ n ≤ 2 ^ 53 - 1 then RustRes.ok n
              else RustRes.err (LiquidError.synErr ("index out of range `" ++ s ++ "`"))
            | none => RustRes.err (LiquidError.synErr ("index out of range `" ++ s ++ "`")))
    ∧ (∀ (fuel : Nat) (t : PTree), t.rule = Rule.index_selector →
        parse_selector (fuel + 1) t
          = match parse_i_json_int t.text with
            | RustRes.ok i => RustRes.ok (Selector.Index i t.span)
            | RustRes.err e => RustRes.err e
            | RustRes.crash => RustRes.crash)
    ∧ (∀ (t st sp ste : PTree) (a b c : Int),
        t.kids = [st, sp, ste] →
        st.rule = Rule.start → sp.rule = Rule.stop → ste.rule = Rule.step →
        parse_i_json_int st.text = RustRes.ok a →
        parse_i_json_int sp.text = RustRes.ok b →
        parse_i_json_int ste.text = RustRes.ok c →
        parse_slice_selector t
          = RustRes.ok (Selector.Slice (some a) (some b) (some c) t.span))
    ∧ (∀ (t st : PTree) (rest : List PTree) (e : LiquidError),
        t.kids = st :: rest → st.rule = Rule.start →
        parse_i_json_int st.text = RustRes.err e →
        parse_slice_selector t = RustRes.err e) := by
  refine ⟨?_, ?_, ?_, ?_⟩
  · intro s
    cases h : decValue? s with
    | none => simp only [parse_i_json_int, parseI64?, h]
    | some n =>
      simp only [parse_i_json_int, parseI64?, h]
      by_cases hij : -(2 ^ 53 : Int) + 1 ≤ n ∧ n ≤ 2 ^ 53 - 1
      · have h64 : i64Min ≤ n ∧ n ≤ i64Max := by
          simp only [i64Min, i64Max]
          omega
        rw [if_pos h64]
        show (if ¬ (-(2 ^ 53 : Int) + 1 ≤ n ∧ n ≤ 2 ^ 53 - 1) then
            RustRes.err (LiquidError.synErr ("index out of range `" ++ s ++ "`"))
          else RustRes.ok n) = _
        rw [if_neg (not_not_intro hij), if_pos hij]
      · by_cases h64 : i64Min ≤ n ∧ n ≤ i64Max
        · rw [if_pos h64]
          show (if ¬ (-(2 ^ 53 : Int) + 1 ≤ n ∧ n ≤ 2 ^ 53 - 1) then
              RustRes.err (LiquidError.synErr ("index out of range `" ++ s ++ "`"))
            else RustRes.ok n) = _
          rw [if_pos hij, if_neg hij]
        · rw [if_neg h64, if_neg hij]
  · intro fuel t h
    simp only [parse_selector, h]
  · intro t st sp ste a b c hk h1 h2 h3 p1 p2 p3
    simp only [parse_slice_selector, hk, slice_loop, h1, h2, h3, p1, p2, p3]
  · intro t st rest e hk h1 p1
    simp only [parse_slice_selector, hk, slice_loop, h1, p1]

/-- Witness for C9: `9007199254740991` (= 2^53 - 1) is accepted,
`9007199254740992` is rejected, and the slice `1:2:0` — step 0 included —
is accepted with all three components preserved. -/
theorem C9_i_json_bounds_witness :
    parse_i_json_int "9007199254740991" = RustRes.ok 9007199254740991
    ∧ parse_i_json_int "9007199254740992"
        = RustRes.err
            (LiquidError.synErr ("index out of range `" ++ "9007199254740992" ++ "`"))
    ∧ parse_slice_selector
        (PTree.node Rule.slice_selector "1:2:0" (0, 5)
          [PTree.node Rule.start "1" (0, 1) [],
            PTree.node Rule.stop "2" (2, 3) [],
            PTree.node Rule.step "0" (4, 5) []])
        = RustRes.ok (Selector.Slice (some 1) (some 2) (some 0) (0, 5)) := by
  refine ⟨?_, ?_, ?_⟩
  · rw [C9_i_json_bounds.1 "9007199254740991"]
    rfl
  · rw [C9_i_json_bounds.1 "9007199254740992"]
    rfl
  · exact C9_i_json_bounds.2.2.1
      (PTree.node Rule.slice_selector "1:2:0" (0, 5)
        [PTree.node Rule.start "1" (0, 1) [],
          PTree.node Rule.stop "2" (2, 3) [],
          PTree.node Rule.step "0" (4, 5) []])
      (PTree.node Rule.start "1" (0, 1) [])
      (PTree.node Rule.stop "2" (2, 3) [])
      (PTree.node Rule.step "0" (4, 5) [])
      1 2 0 rfl rfl rfl rfl (by rfl) (by rfl) (by rfl)

/-! ### The "compared" rule for filter selectors (claim-side analysis) -/

/-- A bare call to a registered function whose return type is `Value`
(the expressions `assert_compared` rejects). -/
def isBareValueFn : FilterExpression → Bool
  | FilterExpression.Function nm _ _ => returnsValue nm
  | _ => false

/-- Does the expression have a bare `Value`-returning function call as a
conjunct/disjunct of its `Logical` spine (itself included when it is not
a `Logical` node)? -/
def conjBad : FilterExpression → Bool
  | FilterExpression.Logical l _ r _ => conjBad l || conjBad r
  | e => isBareValueFn e

theorem assert_compared_ok_of_not_bare (e : FilterExpression)
    (h : isBareValueFn e = false) : assert_compared e = RustRes.ok () := by
  cases e <;> simp_all [isBareValueFn, assert_compared]

theorem assert_compared_fn_ok (nm : String) (args : List FilterExpression)
    (sp : Nat × Nat)
    (h : assert_compared (FilterExpression.Function nm args sp) = RustRes.ok ()) :
    returnsValue nm = false := by
  cases hr : returnsValue nm
  · rfl
  · simp [assert_compared, hr] at h

/-- Is the expression a function call node? -/
def isFunc : FilterExpression → Bool
  | FilterExpression.Function _ _ _ => true
  | _ => false

theorem conjBad_false_of_func_ok (e : FilterExpression) (hf : isFunc e = true)
    (h : assert_compared e = RustRes.ok ()) : conjBad e = false := by
  cases e <;> simp [isFunc] at hf
  next nm args sp =>
  have := assert_compared_fn_ok nm args sp h
  simp [conjBad, isBareValueFn, this]

theorem parse_function_expression_shape (fuel : Nat) (t : PTree)
    (e : FilterExpression) (h : parse_function_expression fuel t = RustRes.ok e) :
    isFunc e = true := by
  match fuel with
  | 0 => simp [parse_function_expression] at h
  | fuel + 1 =>
    simp only [parse_function_expression] at h
    repeat' split at h
    all_goals cases h
    all_goals simp [isFunc]

theorem parse_test_expression_inner_shape (fuel : Nat) (t : PTree)
    (e : FilterExpression) (h : parse_test_expression_inner fuel t = RustRes.ok e) :
    conjBad e = false ∨ isFunc e = true := by
  match fuel with
  | 0 => simp [parse_test_expression_inner] at h
  | fuel + 1 =>
    simp only [parse_test_expression_inner] at h
    split at h
    · split at h
      all_goals cases h
      all_goals simp [conjBad, isBareValueFn]
    · split at h
      all_goals cases h
      all_goals simp [conjBad, isBareValueFn]
    · exact Or.inr (parse_function_expression_shape _ _ _ h)
    · simp at h

theorem parse_test_expression_shape (fuel : Nat) (t : PTree)
    (e : FilterExpression) (h : parse_test_expression fuel t = RustRes.ok e) :
    conjBad e = false ∨ isFunc e = true := by
  match fuel with
  | 0 => simp [parse_test_expression] at h
  | fuel + 1 =>
    simp only [parse_test_expression] at h
    split at h
    · simp at h
    · split at h
      · split at h
        · simp at h
        · split at h
          all_goals cases h
          all_goals simp [conjBad, isBareValueFn]
      · exact parse_test_expression_inner_shape _ _ _ h

theorem parse_comparison_expression_shape (fuel : Nat) (t : PTree)
    (e : FilterExpression) (h : parse_comparison_expression fuel t = RustRes.ok e) :
    conjBad e = false := by
  match fuel with
  | 0 => simp [parse_comparison_expression] at h
  | fuel + 1 =>
    simp only [parse_comparison_expression] at h
    repeat' split at h
    all_goals cases h
    all_goals simp [conjBad, isBareValueFn]

theorem compared_invariant : ∀ fuel : Nat,
    (∀ t e, parse_basic_expression fuel t = RustRes.ok e →
        conjBad e = false ∨ isFunc e = true)
    ∧ (∀ t e, parse_paren_expression fuel t = RustRes.ok e → conjBad e = false)
    ∧ (∀ t e, parse_logical_and_expression fuel t true = RustRes.ok e →
        conjBad e = false)
    ∧ (∀ rest acc span e, conjBad acc = false →
        and_loop fuel rest acc span true = RustRes.ok e → conjBad e = false)
    ∧ (∀ t e, parse_logical_or_expression fuel t true = RustRes.ok e →
        conjBad e = false)
    ∧ (∀ rest acc e, conjBad acc = false →
        or_loop fuel rest acc true = RustRes.ok e → conjBad e = false) := by
  intro fuel
  induction fuel with
  | zero =>
    refine ⟨?_, ?_, ?_, ?_, ?_, ?_⟩
    · intro t e h
      simp [parse_basic_expression] at h
    · intro t e h
      simp [parse_paren_expression] at h
    · intro t e h
      simp [parse_logical_and_expression] at h
    · intro rest acc span e hacc h
      simp [and_loop] at h
    · intro t e h
      simp [parse_logical_or_expression] at h
    · intro rest acc e hacc h
      simp [or_loop] at h
  | succ fuel ih =>
    obtain ⟨ihB, ihP, ihA, ihAL, ihO, ihOL⟩ := ih
    refine ⟨?_, ?_, ?_, ?_, ?_, ?_⟩
    · intro t e h
      simp only [parse_basic_expression] at h
      split at h
      · exact Or.inl (ihP _ _ h)
      · exact Or.inl (parse_comparison_expression_shape _ _ _ h)
      · exact parse_test_expression_shape _ _ _ h
      · cases h
    · intro t e h
      simp only [parse_paren_expression] at h
      split at h
      · cases h
      · split at h
        · split at h
          · cases h
          · split at h
            all_goals cases h
            simp [conjBad, isBareValueFn]
        · exact ihO _ _ h
        · cases h
    · intro t e h
      simp only [parse_logical_and_expression] at h
      split at h
      · cases h
      · rename_i k rest hkids
        split at h
        · rename_i and_expr hbe
          split at h
          · rename_i val heq
            simp only [if_true] at heq
            have hgood : conjBad and_expr = false := by
              rcases ihB _ _ hbe with hg | hfn
              · exact hg
              · exact conjBad_false_of_func_ok _ hfn (by cases val; exact heq)
            exact ihAL _ _ _ _ hgood h
          · cases h
          · cases h
        · cases h
        · cases h
    · intro rest acc span e hacc h
      cases rest with
      | nil =>
        simp only [and_loop] at h
        cases h
        exact hacc
      | cons basic rest =>
        simp only [and_loop] at h
        split at h
        · rename_i right hbe
          split at h
          · rename_i val heq
            simp only [if_true] at heq
            have hright : conjBad right = false := by
              rcases ihB _ _ hbe with hg | hfn
              · exact hg
              · exact conjBad_false_of_func_ok _ hfn (by cases val; exact heq)
            have hacc2 : conjBad
                (FilterExpression.Logical acc LogicalOperator.And right span) = false := by
              simp [conjBad, hacc, hright]
            exact ihAL _ _ _ _ hacc2 h
          · cases h
          · cases h
        · cases h
        · cases h
    · intro t e h
      simp only [parse_logical_or_expression] at h
      split at h
      · cases h
      · rename_i k rest hkids
        split at h
        · rename_i or_expr hae
          split at h
          · rename_i val heq
            simp only [if_true] at heq
            have hgood : conjBad or_expr = false := ihA _ _ hae
            exact ihOL _ _ _ hgood h
          · cases h
          · cases h
        · cases h
        · cases h
    · intro rest acc e hacc h
      cases rest with
      | nil =>
        simp only [or_loop] at h
        cases h
        exact hacc
      | cons and_expr rest =>
        simp only [or_loop] at h
        split at h
        · rename_i right hae
          split at h
          · rename_i val heq
            simp only [if_true] at heq
            have hright : conjBad right = false := ihA _ _ hae
            have hacc2 : conjBad
                (FilterExpression.Logical acc LogicalOperator.Or right and_expr.span)
                  = false := by
              simp [conjBad, hacc, hright]
            exact ihOL _ _ _ hacc2 h
          · cases h
          · cases h
        · cases h
        · cases h

/-- **C3** — Filter-selector "compared" rule (`QueryParser::assert_compared`,
lines 872-890, and `parse_logical_or_expression`, lines 503-561, of
`src/lexer.rs`): `assert_compared` fails exactly on a bare call to a
registered function whose return type is `Value`, with the
must-be-compared `TypeError`, and accepts every other expression shape; a
conjunct of a top-level AND chain that is such a bare call makes the whole
chain fail with that error; and every filter selector the parser accepts
contains no bare `Value`-returning call among the conjuncts/disjuncts of
its top-level AND/OR spine. -/
theorem C3_filter_compared :
    (∀ e : FilterExpression, isBareValueFn e = false → assert_compared e = RustRes.ok ())
    ∧ (∀ (nm : String) (args : List FilterExpression) (sp : Nat × Nat),
        returnsValue nm = true →
        assert_compared (FilterExpression.Function nm args sp)
          = RustRes.err (LiquidError.typ ("result of " ++ nm ++ "() must be compared")))
    ∧ (∀ (fuel : Nat) (t k : PTree) (rest : List PTree) (nm : String)
        (args : List FilterExpression) (sp : Nat × Nat),
        t.kids = k :: rest →
        parse_basic_expression fuel k
          = RustRes.ok (FilterExpression.Function nm args sp) →
        returnsValue nm = true →
        parse_logical_and_expression (fuel + 1) t true
          = RustRes.err (LiquidError.typ ("result of " ++ nm ++ "() must be compared")))
    ∧ (∀ (fuel : Nat) (t : PTree) (sel : Selector),
        parse_filter_selector fuel t = RustRes.ok sel →
        ∃ e sp, sel = Selector.Filter e sp ∧ conjBad e = false) := by
  refine ⟨assert_compared_ok_of_not_bare, ?_, ?_, ?_⟩
  · intro nm args sp h
    simp [assert_compared, h]
  · intro fuel t k rest nm args sp hkids hbe hret
    simp only [parse_logical_and_expression, hkids, hbe, if_true]
    simp [assert_compared, hret]
  · intro fuel t sel h
    match fuel with
    | 0 => simp [parse_filter_selector] at h
    | fuel + 1 =>
      simp only [parse_filter_selector] at h
      split at h
      · cases h
      · split at h
        all_goals cases h
        rename_i e heq
        exact ⟨e, t.span, rfl, (compared_invariant fuel).2.2.2.2.1 _ _ heq⟩

/-- Witness for C3: the filter `?@` (a bare query test) is accepted and
its top-level expression has no bad conjunct; the chain `count(@) and
true`-style first conjunct `count(@)` (a bare `Value`-returning call) is
rejected with the must-be-compared `TypeError`; `assert_compared` accepts
a comparison-free literal-shaped expression. -/
theorem C3_filter_compared_witness :
    assert_compared (FilterExpression.True_ (0, 4)) = RustRes.ok ()
    ∧ assert_compared (FilterExpression.Function "count" [] (0, 5))
        = RustRes.err (LiquidError.typ ("result of " ++ "count" ++ "() must be compared"))
    ∧ parse_logical_and_expression 8
        (PTree.node Rule.logical_and_expr "count(@)" (0, 8)
          [PTree.node Rule.test_expr "count(@)" (0, 8)
            [PTree.node Rule.function_expr "count(@)" (0, 8)
              [PTree.node Rule.word "count" (0, 5) [],
                PTree.node Rule.rel_query "@" (6, 7) []]]])
        true
        = RustRes.err (LiquidError.typ ("result of " ++ "count" ++ "() must be compared"))
    ∧ ∃ e sp,
        Selector.Filter (FilterExpression.RelativeQuery [] (1, 2)) (0, 2)
          = Selector.Filter e sp ∧ conjBad e = false := by
  refine ⟨C3_filter_compared.1 (FilterExpression.True_ (0, 4)) rfl,
    C3_filter_compared.2.1 "count" [] (0, 5) rfl,
    C3_filter_compared.2.2.1 7
      (PTree.node Rule.logical_and_expr "count(@)" (0, 8)
        [PTree.node Rule.test_expr "count(@)" (0, 8)
          [PTree.node Rule.function_expr "count(@)" (0, 8)
            [PTree.node Rule.word "count" (0, 5) [],
              PTree.node Rule.rel_query "@" (6, 7) []]]])
      (PTree.node Rule.test_expr "count(@)" (0, 8)
        [PTree.node Rule.function_expr "count(@)" (0, 8)
          [PTree.node Rule.word "count" (0, 5) [],
            PTree.node Rule.rel_query "@" (6, 7) []]])
      [] "count" [FilterExpression.RelativeQuery [] (6, 7)] (0, 5) rfl (by rfl) rfl,
    C3_filter_compared.2.2.2 9
      (PTree.node Rule.filter_selector "?@" (0, 2)
        [PTree.node Rule.logical_or_expr "@" (1, 2)
          [PTree.node Rule.logical_and_expr "@" (1, 2)
            [PTree.node Rule.test_expr "@" (1, 2)
              [PTree.node Rule.rel_query "@" (1, 2) []]]]])
      (Selector.Filter (FilterExpression.RelativeQuery [] (1, 2)) (0, 2)) (by rfl)⟩

/-! ### Template-level tokens and markup (`src/markup.rs`, `src/lexer.rs`) -/

/-- `Whitespace` from `src/markup.rs` (lines 336-341). -/
inductive Whitespace where
  | Plus
  | Minus
  | Smart
  | Default
deriving DecidableEq, Repr

/-- `Whitespace::from_str` from `src/markup.rs` (lines 344-352); an
unknown marker is `unreachable!`. -/
def Whitespace.from_str (s : String) : RustRes Whitespace :=
  if s = "+" then RustRes.ok Whitespace.Plus
  else if s = "-" then RustRes.ok Whitespace.Minus
  else if s = "~" then RustRes.ok Whitespace.Smart
  else if s = "" then RustRes.ok Whitespace.Default
  else RustRes.crash

/-- `RangeArgument` from `src/markup.rs` (lines 303-308); float values
keep their source text. -/
inductive RangeArgument where
  | StringLiteral (value : String) (span : Nat × Nat)
  | IntegerLiteral (value : Int) (span : Nat × Nat)
  | FloatLiteral (value : String) (span : Nat × Nat)
  | Query (path : Query) (span : Nat × Nat)

/-- `Token` from `src/markup.rs` (lines 139-244); float values keep their
source text. -/
inductive Token where
  | True_ (span : Nat × Nat)
  | False_ (span : Nat × Nat)
  | And (span : Nat × Nat)
  | Or (span : Nat × Nat)
  | In (span : Nat × Nat)
  | Not (span : Nat × Nat)
  | Contains (span : Nat × Nat)
  | Null (span : Nat × Nat)
  | If (span : Nat × Nat)
  | Else (span : Nat × Nat)
  | With (span : Nat × Nat)
  | Required (span : Nat × Nat)
  | As (span : Nat × Nat)
  | For (span : Nat × Nat)
  | Eq (span : Nat × Nat)
  | Ne (span : Nat × Nat)
  | Ge (span : Nat × Nat)
  | Gt (span : Nat × Nat)
  | Le (span : Nat × Nat)
  | Lt (span : Nat × Nat)
  | Colon (span : Nat × Nat)
  | Pipe (span : Nat × Nat)
  | DoublePipe (span : Nat × Nat)
  | Comma (span : Nat × Nat)
  | LeftParen (span : Nat × Nat)
  | RightParen (span : Nat × Nat)
  | Assign (span : Nat × Nat)
  | StringLiteral (value : String) (span : Nat × Nat)
  | IntegerLiteral (value : Int) (span : Nat × Nat)
  | FloatLiteral (value : String) (span : Nat × Nat)
  | Word (value : String) (span : Nat × Nat)
  | RangeLiteral (start stop : RangeArgument) (span : Nat × Nat)
  | Query (path : Query) (span : Nat × Nat)

/-- `Markup` from `src/markup.rs` (lines 8-41). -/
inductive Markup where
  | Content (text : String) (span : Nat × Nat)
  | Raw (wc : Whitespace × Whitespace × Whitespace × Whitespace) (text : String)
      (span : Nat × Nat)
  | Comment (wc : Whitespace × Whitespace) (hashes : String) (text : String)
      (span : Nat × Nat)
  | Output (wc : Whitespace × Whitespace) (expression : List Token) (span : Nat × Nat)
  | Tag (wc : Whitespace × Whitespace) (name : String)
      (expression : Option (List Token)) (span : Nat × Nat)
  | Lines (wc : Whitespace × Whitespace) (statements : List Markup) (span : Nat × Nat)
  | EOI

/-- `Lexer::parse_number` from `src/lexer.rs` (lines 267-319). -/
def lexer_parse_number (t : PTree) : RustRes Token :=
  if t.text = "-0" then RustRes.ok (Token.IntegerLiteral 0 t.span)
  else
    match parse_number_core t with
    | RustRes.ok (isf, n) =>
      if isf then
        if isF64Shape n then RustRes.ok (Token.FloatLiteral n t.span)
        else RustRes.err (LiquidError.synErr "invalid float literal")
      else
        match parseF64TruncI64? n with
        | some v => RustRes.ok (Token.IntegerLiteral v t.span)
        | none => RustRes.err (LiquidError.synErr "invalid integer literal")
    | RustRes.err e => RustRes.err e
    | RustRes.crash => RustRes.crash

/-- `Lexer::parse_range_argument` from `src/lexer.rs` (lines 328-352). -/
def parse_range_argument (t : PTree) : RustRes RangeArgument :=
  match t.rule with
  | Rule.number =>
    match lexer_parse_number t with
    | RustRes.ok (Token.FloatLiteral v sp) => RustRes.ok (RangeArgument.FloatLiteral v sp)
    | RustRes.ok (Token.IntegerLiteral v sp) => RustRes.ok (RangeArgument.IntegerLiteral v sp)
    | RustRes.ok _ => RustRes.crash
    | RustRes.err e => RustRes.err e
    | RustRes.crash => RustRes.crash
  | Rule.query =>
    match QueryParser.parse t.kids with
    | RustRes.ok q => RustRes.ok (RangeArgument.Query q t.span)
    | RustRes.err e => RustRes.err e
    | RustRes.crash => RustRes.crash
  | Rule.string_literal => RustRes.ok (RangeArgument.StringLiteral t.text t.span)
  | Rule.multiline_string_literal => RustRes.ok (RangeArgument.StringLiteral t.text t.span)
  | _ => RustRes.crash

/-- `Lexer::parse_range` from `src/lexer.rs` (lines 320-326). -/
def lexer_parse_range (t : PTree) : RustRes Token :=
  match t.kids with
  | a :: b :: _ =>
    match parse_range_argument a with
    | RustRes.ok start =>
      match parse_range_argument b with
      | RustRes.ok stop => RustRes.ok (Token.RangeLiteral start stop t.span)
      | RustRes.err e => RustRes.err e
      | RustRes.crash => RustRes.crash
    | RustRes.err e => RustRes.err e
    | RustRes.crash => RustRes.crash
  | _ => RustRes.crash

/-- `Lexer::parse_expr_token` from `src/lexer.rs` (lines 208-265). -/
def parse_expr_token (t : PTree) : RustRes Token :=
  match t.rule with
  | Rule.symbol =>
    if t.text = "==" then RustRes.ok (Token.Eq t.span)
    else if t.text = "!=" ∨ t.text = "<>" then RustRes.ok (Token.Ne t.span)
    else if t.text = ">=" then RustRes.ok (Token.Ge t.span)
    else if t.text = "<=" then RustRes.ok (Token.Le t.span)
    else if t.text = ">" then RustRes.ok (Token.Gt t.span)
    else if t.text = "<" then RustRes.ok (Token.Lt t.span)
    else if t.text = ":" then RustRes.ok (Token.Colon t.span)
    else if t.text = "||" then RustRes.ok (Token.DoublePipe t.span)
    else if t.text = "|" then RustRes.ok (Token.Pipe t.span)
    else if t.text = "," then RustRes.ok (Token.Comma t.span)
    else if t.text = "(" then RustRes.ok (Token.LeftParen t.span)
    else if t.text = ")" then RustRes.ok (Token.RightParen t.span)
    else if t.text = "=" then RustRes.ok (Token.Assign t.span)
    else RustRes.crash
  | Rule.reserved_word =>
    if t.text = "true" then RustRes.ok (Token.True_ t.span)
    else if t.text = "false" then RustRes.ok (Token.False_ t.span)
    else if t.text = "and" then RustRes.ok (Token.And t.span)
    else if t.text = "or" then RustRes.ok (Token.Or t.span)
    else if t.text = "in" then RustRes.ok (Token.In t.span)
    else if t.text = "not" then RustRes.ok (Token.Not t.span)
    else if t.text = "contains" then RustRes.ok (Token.Contains t.span)
    else if t.text = "null" ∨ t.text = "nil" then RustRes.ok (Token.Null t.span)
    else if t.text = "if" then RustRes.ok (Token.If t.span)
    else if t.text = "else" then RustRes.ok (Token.Else t.span)
    else if t.text = "with" then RustRes.ok (Token.With t.span)
    else if t.text = "required" then RustRes.ok (Token.Required t.span)
    else if t.text = "as" then RustRes.ok (Token.As t.span)
    else if t.text = "for" then RustRes.ok (Token.For t.span)
    else RustRes.crash
  | Rule.multiline_double_quoted =>
    match unescape t.text with
    | RustRes.ok v => RustRes.ok (Token.StringLiteral v t.span)
    | RustRes.err e => RustRes.err e
    | RustRes.crash => RustRes.crash
  | Rule.double_quoted =>
    match unescape t.text with
    | RustRes.ok v => RustRes.ok (Token.StringLiteral v t.span)
    | RustRes.err e => RustRes.err e
    | RustRes.crash => RustRes.crash
  | Rule.multiline_single_quoted =>
    match unescape (t.text.replace escSquoteStr squoteStr) with
    | RustRes.ok v => RustRes.ok (Token.StringLiteral v t.span)
    | RustRes.err e => RustRes.err e
    | RustRes.crash => RustRes.crash
  | Rule.single_quoted =>
    match unescape (t.text.replace escSquoteStr squoteStr) with
    | RustRes.ok v => RustRes.ok (Token.StringLiteral v t.span)
    | RustRes.err e => RustRes.err e
    | RustRes.crash => RustRes.crash
  | Rule.number => lexer_parse_number t
  | Rule.range => lexer_parse_range t
  | Rule.query =>
    match QueryParser.parse t.kids with
    | RustRes.ok q => RustRes.ok (Token.Query q t.span)
    | RustRes.err e => RustRes.err e
    | RustRes.crash => RustRes.crash
  | Rule.word => RustRes.ok (Token.Word t.text t.span)
  | _ => RustRes.crash

/-- `it.map(parse_expr_token).collect()` over the remaining inner pairs of
a line tag. -/
def expr_token_list : List PTree → RustRes (List Token)
  | [] => RustRes.ok []
  | t :: ts =>
    match parse_expr_token t with
    | RustRes.ok tok =>
      match expr_token_list ts with
      | RustRes.ok rest => RustRes.ok (tok :: rest)
      | RustRes.err e => RustRes.err e
      | RustRes.crash => RustRes.crash
    | RustRes.err e => RustRes.err e
    | RustRes.crash => RustRes.crash

/-- `Lexer::parse_line_statement` from `src/lexer.rs` (lines 180-206). -/
def parse_line_statement (t : PTree) : RustRes Markup :=
  match t.rule with
  | Rule.line_tag =>
    match t.kids with
    | [] => RustRes.crash
    | nm :: rest =>
      match expr_token_list rest with
      | RustRes.ok toks =>
        RustRes.ok (Markup.Tag (Whitespace.Default, Whitespace.Default) nm.text
          (if toks.length = 0 then none else some toks) t.span)
      | RustRes.err e => RustRes.err e
      | RustRes.crash => RustRes.crash
  | Rule.line_comment =>
    match t.kids with
    | [] => RustRes.crash
    | c :: _ =>
      RustRes.ok (Markup.Comment (Whitespace.Default, Whitespace.Default) "#" c.text t.span)
  | _ => RustRes.crash

/-! ### The Liquid AST (`src/ast.rs`) -/

/-- `WhitespaceControl` from `src/ast.rs` (lines 875-880). -/
structure WhitespaceControl where
  left : Whitespace
  right : Whitespace
deriving DecidableEq, Repr

/-- `Primitive` from `src/ast.rs` (lines 709-718); float values keep
their source text. -/
inductive Primitive where
  | TrueLiteral
  | FalseLiteral
  | NullLiteral
  | Integer (value : Int)
  | Float (value : String)
  | StringLiteral (value : String)
  | Range (start stop : Int)
  | Query (path : Query)

/-- `BooleanOperator` from `src/ast.rs`. -/
inductive BooleanOperator where
  | And
  | Or
deriving DecidableEq, Repr

/-- `CompareOperator` from `src/ast.rs` (lines 612-618). -/
inductive CompareOperator where
  | Eq
  | Ne
  | Ge
  | Gt
  | Le
  | Lt
deriving DecidableEq, Repr

/-- `MembershipOperator` from `src/ast.rs` (lines 642-647). -/
inductive MembershipOperator where
  | In
  | NotIn
  | Contains
  | NotContains
deriving DecidableEq, Repr

/-- `BooleanExpression` from `src/ast.rs` (lines 532-554). -/
inductive BooleanExpression where
  | Primitive (expr : Primitive)
  | LogicalNot (expr : BooleanExpression)
  | Logical (left : BooleanExpression) (operator : BooleanOperator)
      (right : BooleanExpression)
  | Comparison (left : Primitive) (operator : CompareOperator) (right : Primitive)
  | Membership (left : Primitive) (operator : MembershipOperator) (right : Primitive)

/-- `CommonArgument` from `src/ast.rs` (lines 836-842). -/
structure CommonArgument where
  value : Option Primitive
  name : Option String

/-- `Filter` from `src/ast.rs` (lines 670-675); named `LiquidFilter` here
to avoid clashing with an unrelated library name. -/
structure LiquidFilter where
  name : String
  args : Option (List CommonArgument)

/-- `InlineCondition` from `src/ast.rs` (lines 470-479). -/
structure InlineCondition where
  expr : BooleanExpression
  alternative : Option Primitive
  alternative_filters : Option (List LiquidFilter)
  tail_filters : Option (List LiquidFilter)

/-- `FilteredExpression` from `src/ast.rs` (lines 424-431). -/
structure FilteredExpression where
  left : Primitive
  filters : Option (List LiquidFilter)
  condition : Option InlineCondition

mutual

/-- `Node` from `src/ast.rs` (lines 31-139). -/
inductive Node where
  | EOI
  | Content (text : String)
  | Output (wc : WhitespaceControl) (expression : FilteredExpression)
  | Raw (wc : WhitespaceControl × WhitespaceControl) (text : String)
  | Comment (wc : WhitespaceControl) (text : String) (hashes : String)
  | AssignTag (wc : WhitespaceControl) (identifier : String)
      (expression : FilteredExpression)
  | CaptureTag (wc : WhitespaceControl × WhitespaceControl) (identifier : String)
      (block : List Node)
  | CaseTag (wc : WhitespaceControl × WhitespaceControl) (arg : Primitive)
      (whens : List WhenTag) (default : Option ElseTag)
  | CycleTag (wc : WhitespaceControl) (name : Option String) (args : List Primitive)
  | DecrementTag (wc : WhitespaceControl) (name : String)
  | IncrementTag (wc : WhitespaceControl) (name : String)
  | EchoTag (wc : WhitespaceControl) (expression : FilteredExpression)
  | ForTag (wc : WhitespaceControl × WhitespaceControl) (name : String)
      (iterable : Primitive) (limit : Option Primitive) (offset : Option Primitive)
      (reversed : Bool) (block : List Node) (default : Option ElseTag)
  | BreakTag (wc : WhitespaceControl)
  | ContinueTag (wc : WhitespaceControl)
  | IfTag (wc : WhitespaceControl × WhitespaceControl) (condition : BooleanExpression)
      (block : List Node) (alternatives : List ElsifTag) (default : Option ElseTag)
  | UnlessTag (wc : WhitespaceControl × WhitespaceControl)
      (condition : BooleanExpression) (block : List Node)
      (alternatives : List ElsifTag) (default : Option ElseTag)
  | IncludeTag (wc : WhitespaceControl) (target : Primitive) (repeat_ : Bool)
      (variable_ : Option Primitive) (alias_ : Option String)
      (args : Option (List CommonArgument))
  | RenderTag (wc : WhitespaceControl) (target : Primitive) (repeat_ : Bool)
      (variable_ : Option Primitive) (alias_ : Option String)
      (args : Option (List CommonArgument))
  | LiquidTag (wc : WhitespaceControl) (block : List Node)
  | TagExtension (wc : WhitespaceControl × Option WhitespaceControl) (name : String)
      (args : List CommonArgument) (block : Option (List Node))
      (tags : Option (List Node))

/-- `WhenTag` from `src/ast.rs` (lines 745-752). -/
inductive WhenTag where
  | mk (wc : WhitespaceControl) (args : List Primitive) (block : List Node)

/-- `ElseTag` from `src/ast.rs` (lines 780-785). -/
inductive ElseTag where
  | mk (wc : WhitespaceControl) (block : List Node)

/-- `ElsifTag` from `src/ast.rs` (lines 808-815). -/
inductive ElsifTag where
  | mk (wc : WhitespaceControl) (condition : BooleanExpression) (block : List Node)

end

/-- `LiquidParser::parse_number` from `src/parser.rs` (lines 503-552);
identical to `Lexer::parse_number` up to the output constructor. -/
def lp_parse_number (t : PTree) : RustRes Primitive :=
  if t.text = "-0" then RustRes.ok (Primitive.Integer 0)
  else
    match parse_number_core t with
    | RustRes.ok (isf, n) =>
      if isf then
        if isF64Shape n then RustRes.ok (Primitive.Float n)
        else RustRes.err (LiquidError.synErr "invalid float literal")
      else
        match parseF64TruncI64? n with
        | some v => RustRes.ok (Primitive.Integer v)
        | none => RustRes.err (LiquidError.synErr "invalid integer literal")
    | RustRes.err e => RustRes.err e
    | RustRes.crash => RustRes.crash

/-- `LiquidParser::parse_decrement_tag` from `src/parser.rs` (lines
778-798): in line mode the right whitespace marker is `Minus`. -/
def lp_parse_decrement_tag (wc : Whitespace) (it : List PTree) (line : Bool) :
    RustRes Node :=
  match it with
  | [] => RustRes.crash
  | nm :: rest =>
    match (if line then RustRes.ok Whitespace.Minus
      else
        match rest with
        | [] => RustRes.crash
        | w :: _ => Whitespace.from_str w.text) with
    | RustRes.ok wc_right =>
      RustRes.ok (Node.DecrementTag ⟨wc, wc_right⟩ nm.text)
    | RustRes.err e => RustRes.err e
    | RustRes.crash => RustRes.crash

/-- `LiquidParser::parse_increment_tag` from `src/parser.rs` (lines
800-820). -/
def lp_parse_increment_tag (wc : Whitespace) (it : List PTree) (line : Bool) :
    RustRes Node :=
  match it with
  | [] => RustRes.crash
  | nm :: rest =>
    match (if line then RustRes.ok Whitespace.Minus
      else
        match rest with
        | [] => RustRes.crash
        | w :: _ => Whitespace.from_str w.text) with
    | RustRes.ok wc_right =>
      RustRes.ok (Node.IncrementTag ⟨wc, wc_right⟩ nm.text)
    | RustRes.err e => RustRes.err e
    | RustRes.crash => RustRes.crash

/-- `LiquidParser::parse_line_expression` from `src/parser.rs` (lines
1246-1282): every line tag is parsed with `wc = Whitespace::Minus` on the
left, and the embedded arms (`break`, `continue`, `decrement`,
`increment`) produce `Minus` on the right as well; the remaining arms
dispatch to tag parsers outside the fragment embedded here. -/
def lp_parse_line_expression (t : PTree) : RustRes Node :=
  match t.kids with
  | [] => RustRes.crash
  | expr :: rest =>
    match expr.rule with
    | Rule.break_ =>
      RustRes.ok (Node.BreakTag ⟨Whitespace.Minus, Whitespace.Minus⟩)
    | Rule.continue_ =>
      RustRes.ok (Node.ContinueTag ⟨Whitespace.Minus, Whitespace.Minus⟩)
    | Rule.decrement => lp_parse_decrement_tag Whitespace.Minus rest true
    | Rule.increment => lp_parse_increment_tag Whitespace.Minus rest true
    | _ => RustRes.crash

/-- **C8** — Number-literal parsing (`Lexer::parse_number`, `src/lexer.rs`
lines 267-319; `LiquidParser::parse_number`, `src/parser.rs` lines
503-552): the source text `-0` parses to integer 0; otherwise the inner
pairs decide the variant — a lone integer part gives an integer, a `frac`
pair forces a float, an `exp` pair gives a float exactly when its text
contains `-` (and likewise for a third trailing pair) — and the integer
variant's value comes from parsing the full literal text as an IEEE-754
double truncated to `i64`. -/
theorem C8_number_parsing :
    (∀ t : PTree, t.text = "-0" →
        lexer_parse_number t = RustRes.ok (Token.IntegerLiteral 0 t.span)
        ∧ lp_parse_number t = RustRes.ok (Primitive.Integer 0))
    ∧ (∀ t i : PTree, t.kids = [i] →
        parse_number_core t = RustRes.ok (false, i.text))
    ∧ (∀ t i f : PTree, t.kids = [i, f] → f.rule = Rule.frac →
        parse_number_core t = RustRes.ok (true, i.text ++ f.text))
    ∧ (∀ t i ex : PTree, t.kids = [i, ex] → ex.rule = Rule.exp →
        parse_number_core t = RustRes.ok (strContainsMinus ex.text, i.text ++ ex.text))
    ∧ (∀ t i f ex : PTree, t.kids = [i, f, ex] → f.rule = Rule.frac →
        parse_number_core t
          = RustRes.ok (true, i.text ++ f.text ++ ex.text))
    ∧ (∀ (t : PTree) (isf : Bool) (n : String), t.text ≠ "-0" →
        parse_number_core t = RustRes.ok (isf, n) →
        (isf = true →
          lexer_parse_number t
            = (if isF64Shape n then RustRes.ok (Token.FloatLiteral n t.span)
              else RustRes.err (LiquidError.synErr "invalid float literal"))
          ∧ lp_parse_number t
            = (if isF64Shape n then RustRes.ok (Primitive.Float n)
              else RustRes.err (LiquidError.synErr "invalid float literal")))
        ∧ (isf = false →
          lexer_parse_number t
            = (match parseF64TruncI64? n with
              | some v => RustRes.ok (Token.IntegerLiteral v t.span)
              | none => RustRes.err (LiquidError.synErr "invalid integer literal"))
          ∧ lp_parse_number t
            = (match parseF64TruncI64? n with
              | some v => RustRes.ok (Primitive.Integer v)
              | none => RustRes.err (LiquidError.synErr "invalid integer literal")))) := by
  refine ⟨?_, ?_, ?_, ?_, ?_, ?_⟩
  · intro t h
    constructor <;> simp [lexer_parse_number, lp_parse_number, h]
  · intro t i hkids
    simp [parse_number_core, hkids]
  · intro t i f hkids hrule
    simp [parse_number_core, hkids, hrule]
  · intro t i ex hkids hrule
    simp [parse_number_core, hkids, hrule]
  · intro t i f ex hkids hrule
    simp [parse_number_core, hkids, hrule]
  · intro t isf n hne hcore
    constructor <;> intro hisf <;> subst hisf <;> constructor <;>
      simp only [lexer_parse_number, lp_parse_number, if_neg hne, hcore] <;>
      first
        | rfl
        | (cases hp : parseF64TruncI64? n <;> simp [hp])

/-- Witness for C8: `-0` gives integer 0 in both copies; `1e3` (no `.`,
no `-` in the exponent) gives integer 1000; `1.5` gives a float; `1e-3`
(`-` in the exponent) gives a float. -/
theorem C8_number_parsing_witness :
    lexer_parse_number
        (PTree.node Rule.number "-0" (0, 2) [PTree.node Rule.int "-0" (0, 2) []])
        = RustRes.ok (Token.IntegerLiteral 0 (0, 2))
    ∧ lp_parse_number
        (PTree.node Rule.number "-0" (0, 2) [PTree.node Rule.int "-0" (0, 2) []])
        = RustRes.ok (Primitive.Integer 0)
    ∧ lexer_parse_number
        (PTree.node Rule.number "1e3" (0, 3)
          [PTree.node Rule.int "1" (0, 1) [], PTree.node Rule.exp "e3" (1, 3) []])
        = RustRes.ok (Token.IntegerLiteral 1000 (0, 3))
    ∧ lp_parse_number
        (PTree.node Rule.number "1.5" (0, 3)
          [PTree.node Rule.int "1" (0, 1) [], PTree.node Rule.frac ".5" (1, 3) []])
        = RustRes.ok (Primitive.Float "1.5")
    ∧ lexer_parse_number
        (PTree.node Rule.number "1e-3" (0, 4)
          [PTree.node Rule.int "1" (0, 1) [], PTree.node Rule.exp "e-3" (1, 4) []])
        = RustRes.ok (Token.FloatLiteral "1e-3" (0, 4)) := by
  refine ⟨(C8_number_parsing.1
      (PTree.node Rule.number "-0" (0, 2) [PTree.node Rule.int "-0" (0, 2) []]) rfl).1,
    (C8_number_parsing.1
      (PTree.node Rule.number "-0" (0, 2) [PTree.node Rule.int "-0" (0, 2) []]) rfl).2,
    ?_, ?_, ?_⟩
  · rw [((C8_number_parsing.2.2.2.2.2
      (PTree.node Rule.number "1e3" (0, 3)
        [PTree.node Rule.int "1" (0, 1) [], PTree.node Rule.exp "e3" (1, 3) []])
      false "1e3" (by decide) (by rfl)).2 rfl).1]
    rfl
  · rw [((C8_number_parsing.2.2.2.2.2
      (PTree.node Rule.number "1.5" (0, 3)
        [PTree.node Rule.int "1" (0, 1) [], PTree.node Rule.frac ".5" (1, 3) []])
      true "1.5" (by decide) (by rfl)).1 rfl).2]
    rfl
  · rw [((C8_number_parsing.2.2.2.2.2
      (PTree.node Rule.number "1e-3" (0, 4)
        [PTree.node Rule.int "1" (0, 1) [], PTree.node Rule.exp "e-3" (1, 4) []])
      true "1e-3" (by decide) (by rfl)).1 rfl).1]
    rfl

/-- **C10** — Line-mode whitespace disagreement
(`Lexer::parse_line_statement`, `src/lexer.rs` lines 180-206, vs
`LiquidParser::parse_line_expression`, `src/parser.rs` lines 1246-1282):
every line statement the lexer accepts is a `Markup.Tag` or
`Markup.Comment` whose whitespace-control pair is `(Default, Default)`,
while the template parser assigns `(Minus, Minus)` to line-mode tags —
shown here for the inlined `break`/`continue` arms and the
`decrement`/`increment` tag parsers in line mode — so the two public
entry points disagree on line-mode whitespace markers. -/
theorem C10_line_mode_whitespace :
    (∀ t m, parse_line_statement t = RustRes.ok m →
        (∃ name expr sp,
            m = Markup.Tag (Whitespace.Default, Whitespace.Default) name expr sp)
        ∨ (∃ text sp,
            m = Markup.Comment (Whitespace.Default, Whitespace.Default) "#" text sp))
    ∧ (∀ t expr rest, t.kids = expr :: rest → expr.rule = Rule.break_ →
        lp_parse_line_expression t
          = RustRes.ok (Node.BreakTag ⟨Whitespace.Minus, Whitespace.Minus⟩))
    ∧ (∀ t expr rest, t.kids = expr :: rest → expr.rule = Rule.continue_ →
        lp_parse_line_expression t
          = RustRes.ok (Node.ContinueTag ⟨Whitespace.Minus, Whitespace.Minus⟩))
    ∧ (∀ t expr nm rest, t.kids = expr :: nm :: rest → expr.rule = Rule.decrement →
        lp_parse_line_expression t
          = RustRes.ok (Node.DecrementTag ⟨Whitespace.Minus, Whitespace.Minus⟩ nm.text))
    ∧ (∀ t expr nm rest, t.kids = expr :: nm :: rest → expr.rule = Rule.increment →
        lp_parse_line_expression t
          = RustRes.ok (Node.IncrementTag ⟨Whitespace.Minus, Whitespace.Minus⟩ nm.text)) := by
  refine ⟨?_, ?_, ?_, ?_, ?_⟩
  · intro t m h
    simp only [parse_line_statement] at h
    split at h
    · split at h
      · cases h
      · split at h
        all_goals cases h
        exact Or.inl ⟨_, _, _, rfl⟩
    · split at h
      · cases h
      · cases h
        exact Or.inr ⟨_, _, rfl⟩
    · cases h
  · intro t expr rest hkids hrule
    simp only [lp_parse_line_expression, hkids, hrule]
  · intro t expr rest hkids hrule
    simp only [lp_parse_line_expression, hkids, hrule]
  · intro t expr nm rest hkids hrule
    simp only [lp_parse_line_expression, hkids, hrule, lp_parse_decrement_tag, if_true]
  · intro t expr nm rest hkids hrule
    simp only [lp_parse_line_expression, hkids, hrule, lp_parse_increment_tag, if_true]

/-- Witness for C10: the line statement `echo true` tokenizes to a tag
with the `(Default, Default)` pair, while the parser's line-mode `break`
and `decrement my_var` produce `(Minus, Minus)`. -/
theorem C10_line_mode_whitespace_witness :
    ((∃ name expr sp,
        Markup.Tag (Whitespace.Default, Whitespace.Default) "echo"
            (some [Token.True_ (8, 12)]) (0, 12)
          = Markup.Tag (Whitespace.Default, Whitespace.Default) name expr sp)
      ∨ (∃ text sp,
        Markup.Tag (Whitespace.Default, Whitespace.Default) "echo"
            (some [Token.True_ (8, 12)]) (0, 12)
          = Markup.Comment (Whitespace.Default, Whitespace.Default) "#" text sp))
    ∧ lp_parse_line_expression
        (PTree.node Rule.line_tag "break" (0, 5)
          [PTree.node Rule.break_ "break" (0, 5) []])
        = RustRes.ok (Node.BreakTag ⟨Whitespace.Minus, Whitespace.Minus⟩)
    ∧ lp_parse_line_expression
        (PTree.node Rule.line_tag "decrement my_var" (0, 16)
          [PTree.node Rule.decrement "decrement" (0, 9) [],
            PTree.node Rule.word "my_var" (10, 16) []])
        = RustRes.ok
            (Node.DecrementTag ⟨Whitespace.Minus, Whitespace.Minus⟩ "my_var") := by
  refine ⟨C10_line_mode_whitespace.1
      (PTree.node Rule.line_tag "echo true" (0, 12)
        [PTree.node Rule.word "echo" (0, 4) [],
          PTree.node Rule.reserved_word "true" (8, 12) []])
      (Markup.Tag (Whitespace.Default, Whitespace.Default) "echo"
        (some [Token.True_ (8, 12)]) (0, 12)) (by rfl),
    C10_line_mode_whitespace.2.1
      (PTree.node Rule.line_tag "break" (0, 5)
        [PTree.node Rule.break_ "break" (0, 5) []])
      (PTree.node Rule.break_ "break" (0, 5) []) [] rfl rfl,
    C10_line_mode_whitespace.2.2.2.1
      (PTree.node Rule.line_tag "decrement my_var" (0, 16)
        [PTree.node Rule.decrement "decrement" (0, 9) [],
          PTree.node Rule.word "my_var" (10, 16) []])
      (PTree.node Rule.decrement "decrement" (0, 9) [])
      (PTree.node Rule.word "my_var" (10, 16) []) [] rfl rfl⟩

/-! ### The canonical printer (`src/query.rs` and `src/ast.rs` Display
impls) -/

/-- `Display for Whitespace` (`src/ast.rs` lines 903-912): `Default`
prints nothing. -/
def Whitespace.fmt : Whitespace → String
  | Whitespace.Plus => "+"
  | Whitespace.Minus => "-"
  | Whitespace.Smart => "~"
  | Whitespace.Default => ""

/-- `Display for LogicalOperator` (`src/query.rs` lines 313-320). -/
def LogicalOperator.fmt : LogicalOperator → String
  | LogicalOperator.And => "&&"
  | LogicalOperator.Or => "||"

/-- `Display for ComparisonOperator` (`src/query.rs` lines 340-351). -/
def ComparisonOperator.fmt : ComparisonOperator → String
  | ComparisonOperator.Eq => "=="
  | ComparisonOperator.Ne => "!="
  | ComparisonOperator.Ge => ">="
  | ComparisonOperator.Gt => ">"
  | ComparisonOperator.Le => "<="
  | ComparisonOperator.Lt => "<"

mutual

/-- `Display for Segment` (`src/query.rs` lines 86-113). -/
def Segment.display : Segment → String
  | Segment.Child selectors _ => "[" ++ selectorsDisplay selectors ++ "]"
  | Segment.Recursive selectors _ => "..[" ++ selectorsDisplay selectors ++ "]"
  | Segment.Eoi => ""

/-- `join(", ")` over selector displays. -/
def selectorsDisplay : List Selector → String
  | [] => ""
  | [s] => Selector.display s
  | s :: rest => Selector.display s ++ ", " ++ selectorsDisplay rest

/-- `join("")` over segment displays. -/
def segmentsDisplay : List Segment → String
  | [] => ""
  | s :: rest => Segment.display s ++ segmentsDisplay rest

/-- `Display for Selector` (`src/query.rs` lines 146-170). -/
def Selector.display : Selector → String
  | Selector.Name name _ => squoteStr ++ name ++ squoteStr
  | Selector.Index i _ => toString i
  | Selector.Slice start stop step _ =>
    (match start with | some i => toString i | none => "")
      ++ ":" ++ (match stop with | some i => toString i | none => "")
      ++ ":" ++ (match step with | some i => toString i | none => "1")
  | Selector.Wild _ => "*"
  | Selector.Filter e _ => "?" ++ FilterExpression.display e
  | Selector.SingularQuery q _ => "$" ++ segmentsDisplay q

/-- `Display for FilterExpression` (`src/query.rs` lines 244-311); floats
are shown via their stored source text. -/
def FilterExpression.display : FilterExpression → String
  | FilterExpression.True_ _ => "true"
  | FilterExpression.False_ _ => "false"
  | FilterExpression.Null _ => "null"
  | FilterExpression.StringLiteral v _ => "\"" ++ v ++ "\""
  | FilterExpression.Int v _ => toString v
  | FilterExpression.Float text _ => text
  | FilterExpression.Not e _ => "!" ++ FilterExpression.display e
  | FilterExpression.Logical l op r _ =>
    "(" ++ FilterExpression.display l ++ " " ++ LogicalOperator.fmt op ++ " "
      ++ FilterExpression.display r ++ ")"
  | FilterExpression.Comparison l op r _ =>
    FilterExpression.display l ++ " " ++ ComparisonOperator.fmt op ++ " "
      ++ FilterExpression.display r
  | FilterExpression.RelativeQuery q _ => "@" ++ segmentsDisplay q
  | FilterExpression.RootQuery q _ => "$" ++ segmentsDisplay q
  | FilterExpression.Function nm args _ => nm ++ "(" ++ filterArgsDisplay args ++ ")"

/-- `join(", ")` over function-argument displays. -/
def filterArgsDisplay : List FilterExpression → String
  | [] => ""
  | [a] => FilterExpression.display a
  | a :: rest => FilterExpression.display a ++ ", " ++ filterArgsDisplay rest

end

/-- `Display for Query` (`src/query.rs` lines 58-70). -/
def Query.display (q : Query) : String := "$" ++ segmentsDisplay q.segments

/-- `Display for BooleanOperator` (`src/ast.rs` lines 589-596). -/
def BooleanOperator.fmt : BooleanOperator → String
  | BooleanOperator.And => "and"
  | BooleanOperator.Or => "or"

/-- `Display for CompareOperator` (`src/ast.rs` lines 620-632). -/
def CompareOperator.fmt : CompareOperator → String
  | CompareOperator.Eq => "=="
  | CompareOperator.Ne => "!="
  | CompareOperator.Ge => ">="
  | CompareOperator.Gt => ">"
  | CompareOperator.Le => "<="
  | CompareOperator.Lt => "<"

/-- `Display for MembershipOperator` (`src/ast.rs` lines 649-658). -/
def MembershipOperator.fmt : MembershipOperator → String
  | MembershipOperator.In => "in"
  | MembershipOperator.NotIn => "not in"
  | MembershipOperator.Contains => "contains"
  | MembershipOperator.NotContains => "not contains"

/-- `Display for Primitive` (`src/ast.rs` lines 720-734); floats are
shown via their stored source text. -/
def Primitive.display : Primitive → String
  | Primitive.TrueLiteral => "true"
  | Primitive.FalseLiteral => "false"
  | Primitive.NullLiteral => "null"
  | Primitive.Integer v => toString v
  | Primitive.Float text => text
  | Primitive.StringLiteral v => squoteStr ++ v ++ squoteStr
  | Primitive.Range a b => "(" ++ toString a ++ ".." ++ toString b ++ ")"
  | Primitive.Query q => Query.display q

/-- `Display for BooleanExpression` (`src/ast.rs` lines 556-578): the
`Logical`, `Comparison` and `Membership` arms print a comma right after
the operator. -/
def BooleanExpression.display : BooleanExpression → String
  | BooleanExpression.Primitive e => Primitive.display e
  | BooleanExpression.LogicalNot e => "not (" ++ BooleanExpression.display e ++ ")"
  | BooleanExpression.Logical l op r =>
    BooleanExpression.display l ++ " " ++ BooleanOperator.fmt op ++ ", "
      ++ BooleanExpression.display r
  | BooleanExpression.Comparison l op r =>
    Primitive.display l ++ " " ++ CompareOperator.fmt op ++ ", " ++ Primitive.display r
  | BooleanExpression.Membership l op r =>
    Primitive.display l ++ " " ++ MembershipOperator.fmt op ++ ", "
      ++ Primitive.display r

/-- `Display for CommonArgument` (`src/ast.rs` lines 846-866). -/
def CommonArgument.display (a : CommonArgument) : String :=
  match a.value, a.name with
  | some v, some k => k ++ ":" ++ Primitive.display v
  | some v, none => Primitive.display v
  | none, some k => k
  | none, none => ""

def commonArgsDisplay (l : List CommonArgument) : String :=
  String.intercalate ", " (l.map CommonArgument.display)

/-- `Display for Filter` (`src/ast.rs` lines 677-697). -/
def LiquidFilter.display (fl : LiquidFilter) : String :=
  match fl.args with
  | some arguments => fl.name ++ ": " ++ commonArgsDisplay arguments
  | none => fl.name

def filtersDisplay (l : List LiquidFilter) : String :=
  String.intercalate " | " (l.map LiquidFilter.display)

/-- `Display for InlineCondition` (`src/ast.rs` lines 481-522). -/
def InlineCondition.display (c : InlineCondition) : String :=
  "if " ++ BooleanExpression.display c.expr
    ++ (match c.alternative with
      | some alt => " else " ++ Primitive.display alt
      | none => "")
    ++ (match c.alternative_filters with
      | some fls => if 0 < fls.length then " | " ++ filtersDisplay fls else ""
      | none => "")
    ++ (match c.tail_filters with
      | some fls => " || " ++ filtersDisplay fls
      | none => "")

/-- `Display for FilteredExpression` (`src/ast.rs` lines 433-460). -/
def FilteredExpression.display (e : FilteredExpression) : String :=
  Primitive.display e.left
    ++ (match e.filters with
      | some fls => if 0 < fls.length then " | " ++ filtersDisplay fls else ""
      | none => "")
    ++ (match e.condition with
      | some c => " " ++ InlineCondition.display c
      | none => "")

def primitiveArgsDisplay (l : List Primitive) : String :=
  String.intercalate ", " (l.map Primitive.display)

mutual

/-- `Display for Node` (`src/ast.rs` lines 141-413).  The `UnlessTag` arm
closes the block with the literal text `unless` (not `endunless`), and
the `TagExtension` arm is `todo!()` (a crash). -/
def Node.display : Node → RustRes String
  | Node.EOI => RustRes.ok ""
  | Node.Content text => RustRes.ok text
  | Node.Output wc expression =>
    RustRes.ok ("\x7b\x7b" ++ Whitespace.fmt wc.left ++ " "
      ++ FilteredExpression.display expression ++ " " ++ Whitespace.fmt wc.right
      ++ "\x7d\x7d")
  | Node.Raw wc text =>
    RustRes.ok ("\x7b%" ++ Whitespace.fmt wc.1.left ++ " raw "
      ++ Whitespace.fmt wc.1.right ++ "%\x7d" ++ text
      ++ "\x7b%" ++ Whitespace.fmt wc.2.left ++ " endraw "
      ++ Whitespace.fmt wc.2.right ++ "%\x7d")
  | Node.Comment wc text hashes =>
    RustRes.ok ("\x7b" ++ hashes ++ Whitespace.fmt wc.left ++ text
      ++ Whitespace.fmt wc.right ++ hashes ++ "\x7d")
  | Node.AssignTag wc identifier expression =>
    RustRes.ok ("\x7b%" ++ Whitespace.fmt wc.left ++ " assign " ++ identifier
      ++ " = " ++ FilteredExpression.display expression ++ " "
      ++ Whitespace.fmt wc.right ++ "%\x7d")
  | Node.CaptureTag wc identifier block =>
    match displayBlock block with
    | RustRes.ok b =>
      RustRes.ok ("\x7b%" ++ Whitespace.fmt wc.1.left ++ " capture " ++ identifier
        ++ " " ++ Whitespace.fmt wc.1.right ++ "%\x7d" ++ b
        ++ "\x7b%" ++ Whitespace.fmt wc.2.left ++ " endcapture "
        ++ Whitespace.fmt wc.2.right ++ "%\x7d")
    | RustRes.err e => RustRes.err e
    | RustRes.crash => RustRes.crash
  | Node.CaseTag wc arg whens default =>
    match whensDisplay whens with
    | RustRes.ok ws =>
      match elseDisplay default with
      | RustRes.ok d =>
        RustRes.ok ("\x7b%" ++ Whitespace.fmt wc.1.left ++ " case "
          ++ Primitive.display arg ++ " " ++ Whitespace.fmt wc.1.right
          ++ "%\x7d\n" ++ ws ++ d
          ++ "\x7b%" ++ Whitespace.fmt wc.2.left ++ " endcase "
          ++ Whitespace.fmt wc.2.right ++ "%\x7d")
      | RustRes.err e => RustRes.err e
      | RustRes.crash => RustRes.crash
    | RustRes.err e => RustRes.err e
    | RustRes.crash => RustRes.crash
  | Node.CycleTag wc name args =>
    RustRes.ok ("\x7b%" ++ Whitespace.fmt wc.left ++ " cycle "
      ++ (match name with
        | some s => s ++ ": "
        | none => "")
      ++ primitiveArgsDisplay args ++ " " ++ Whitespace.fmt wc.right ++ "%\x7d")
  | Node.DecrementTag wc name =>
    RustRes.ok ("\x7b%" ++ Whitespace.fmt wc.left ++ " decrement " ++ name ++ " "
      ++ Whitespace.fmt wc.right ++ "%\x7d")
  | Node.IncrementTag wc name =>
    RustRes.ok ("\x7b%" ++ Whitespace.fmt wc.left ++ " increment " ++ name ++ " "
      ++ Whitespace.fmt wc.right ++ "%\x7d")
  | Node.EchoTag wc expression =>
    RustRes.ok ("\x7b%" ++ Whitespace.fmt wc.left ++ " echo "
      ++ FilteredExpression.display expression ++ " " ++ Whitespace.fmt wc.right
      ++ "%\x7d")
  | Node.ForTag wc name iterable limit offset reversed block default =>
    match displayBlock block with
    | RustRes.ok b =>
      match elseDisplay default with
      | RustRes.ok d =>
        RustRes.ok ("\x7b%" ++ Whitespace.fmt wc.1.left ++ " for " ++ name
          ++ " in " ++ Primitive.display iterable ++ " "
          ++ (match limit with
            | some p => "limit: " ++ Primitive.display p ++ ", "
            | none => "")
          ++ (match offset with
            | some p => "offset: " ++ Primitive.display p ++ ", "
            | none => "")
          ++ (if reversed then "reversed " else "")
          ++ Whitespace.fmt wc.1.right ++ "%\x7d" ++ b ++ d
          ++ "\x7b%" ++ Whitespace.fmt wc.2.left ++ " endfor "
          ++ Whitespace.fmt wc.2.right ++ "%\x7d")
      | RustRes.err e => RustRes.err e
      | RustRes.crash => RustRes.crash
    | RustRes.err e => RustRes.err e
    | RustRes.crash => RustRes.crash
  | Node.BreakTag wc =>
    RustRes.ok ("\x7b%" ++ Whitespace.fmt wc.left ++ " break "
      ++ Whitespace.fmt wc.right ++ "%\x7d")
  | Node.ContinueTag wc =>
    RustRes.ok ("\x7b%" ++ Whitespace.fmt wc.left ++ " continue "
      ++ Whitespace.fmt wc.right ++ "%\x7d")
  | Node.IfTag wc condition block alternatives default =>
    match displayBlock block with
    | RustRes.ok b =>
      match elsifsDisplay alternatives with
      | RustRes.ok alts =>
        match elseDisplay default with
        | RustRes.ok d =>
          RustRes.ok ("\x7b%" ++ Whitespace.fmt wc.1.left ++ " if "
            ++ BooleanExpression.display condition ++ " "
            ++ Whitespace.fmt wc.1.right ++ "%\x7d" ++ b ++ alts ++ d
            ++ "\x7b%" ++ Whitespace.fmt wc.2.left ++ " endif "
            ++ Whitespace.fmt wc.2.right ++ "%\x7d")
        | RustRes.err e => RustRes.err e
        | RustRes.crash => RustRes.crash
      | RustRes.err e => RustRes.err e
      | RustRes.crash => RustRes.crash
    | RustRes.err e => RustRes.err e
    | RustRes.crash => RustRes.crash
  | Node.UnlessTag wc condition block alternatives default =>
    match displayBlock block with
    | RustRes.ok b =>
      match elsifsDisplay alternatives with
      | RustRes.ok alts =>
        match elseDisplay default with
        | RustRes.ok d =>
          RustRes.ok ("\x7b%" ++ Whitespace.fmt wc.1.left ++ " unless "
            ++ BooleanExpression.display condition ++ " "
            ++ Whitespace.fmt wc.1.right ++ "%\x7d" ++ b ++ alts ++ d
            ++ "\x7b%" ++ Whitespace.fmt wc.2.left ++ " unless "
            ++ Whitespace.fmt wc.2.right ++ "%\x7d")
        | RustRes.err e => RustRes.err e
        | RustRes.crash => RustRes.crash
      | RustRes.err e => RustRes.err e
      | RustRes.crash => RustRes.crash
    | RustRes.err e => RustRes.err e
    | RustRes.crash => RustRes.crash
  | Node.IncludeTag wc target repeat_ variable_ alias_ args =>
    RustRes.ok ("\x7b%" ++ Whitespace.fmt wc.left ++ " include "
      ++ Primitive.display target ++ " "
      ++ (match variable_ with
        | some v =>
          if repeat_ then "for " ++ Primitive.display v ++ " "
          else "with " ++ Primitive.display v ++ " "
        | none => "")
      ++ (match alias_ with
        | some s => "as " ++ s ++ " "
        | none => "")
      ++ (match args with
        | some a => commonArgsDisplay a ++ " "
        | none => "")
      ++ Whitespace.fmt wc.right ++ "%\x7d")
  | Node.RenderTag wc target repeat_ variable_ alias_ args =>
    RustRes.ok ("\x7b%" ++ Whitespace.fmt wc.left ++ " render "
      ++ Primitive.display target ++ " "
      ++ (match variable_ with
        | some v =>
          if repeat_ then "for " ++ Primitive.display v ++ " "
          else "with " ++ Primitive.display v ++ " "
        | none => "")
      ++ (match alias_ with
        | some s => "as " ++ s ++ " "
        | none => "")
      ++ (match args with
        | some a => commonArgsDisplay a ++ " "
        | none => "")
      ++ Whitespace.fmt wc.right ++ "%\x7d")
  | Node.LiquidTag wc block =>
    match displayLineBlock block with
    | RustRes.ok b =>
      RustRes.ok ("\x7b%" ++ Whitespace.fmt wc.left ++ " liquid\n" ++ b ++ "\n"
        ++ Whitespace.fmt wc.right ++ "%\x7d")
    | RustRes.err e => RustRes.err e
    | RustRes.crash => RustRes.crash
  | Node.TagExtension _ _ _ _ _ => RustRes.crash

/-- `display_block` (`src/ast.rs` lines 921-927): `join("")`. -/
def displayBlock : List Node → RustRes String
  | [] => RustRes.ok ""
  | n :: rest =>
    match Node.display n with
    | RustRes.ok s =>
      match displayBlock rest with
      | RustRes.ok r => RustRes.ok (s ++ r)
      | RustRes.err e => RustRes.err e
      | RustRes.crash => RustRes.crash
    | RustRes.err e => RustRes.err e
    | RustRes.crash => RustRes.crash

/-- `display_line_block` (`src/ast.rs` lines 929-935): `join("\n")`. -/
def displayLineBlock : List Node → RustRes String
  | [] => RustRes.ok ""
  | [n] => Node.display n
  | n :: rest =>
    match Node.display n with
    | RustRes.ok s =>
      match displayLineBlock rest with
      | RustRes.ok r => RustRes.ok (s ++ "\n" ++ r)
      | RustRes.err e => RustRes.err e
      | RustRes.crash => RustRes.crash
    | RustRes.err e => RustRes.err e
    | RustRes.crash => RustRes.crash

/-- `Display for WhenTag` (`src/ast.rs` lines 754-770). -/
def WhenTag.display : WhenTag → RustRes String
  | WhenTag.mk wc args block =>
    match displayBlock block with
    | RustRes.ok b =>
      RustRes.ok ("\x7b%" ++ Whitespace.fmt wc.left ++ " when "
        ++ primitiveArgsDisplay args ++ " " ++ Whitespace.fmt wc.right ++ "%\x7d"
        ++ b)
    | RustRes.err e => RustRes.err e
    | RustRes.crash => RustRes.crash

def whensDisplay : List WhenTag → RustRes String
  | [] => RustRes.ok ""
  | w :: rest =>
    match WhenTag.display w with
    | RustRes.ok s =>
      match whensDisplay rest with
      | RustRes.ok r => RustRes.ok (s ++ r)
      | RustRes.err e => RustRes.err e
      | RustRes.crash => RustRes.crash
    | RustRes.err e => RustRes.err e
    | RustRes.crash => RustRes.crash

/-- `Display for ElseTag` (`src/ast.rs` lines 787-798). -/
def ElseTag.display : ElseTag → RustRes String
  | ElseTag.mk wc block =>
    match displayBlock block with
    | RustRes.ok b =>
      RustRes.ok ("\x7b%" ++ Whitespace.fmt wc.left ++ " else "
        ++ Whitespace.fmt wc.right ++ "%\x7d" ++ b)
    | RustRes.err e => RustRes.err e
    | RustRes.crash => RustRes.crash

def elseDisplay : Option ElseTag → RustRes String
  | none => RustRes.ok ""
  | some t => ElseTag.display t

/-- `Display for ElsifTag` (`src/ast.rs` lines 817-830). -/
def ElsifTag.display : ElsifTag → RustRes String
  | ElsifTag.mk wc condition block =>
    match displayBlock block with
    | RustRes.ok b =>
      RustRes.ok ("\x7b%" ++ Whitespace.fmt wc.left ++ " elsif "
        ++ BooleanExpression.display condition ++ " " ++ Whitespace.fmt wc.right
        ++ "%\x7d" ++ b)
    | RustRes.err e => RustRes.err e
    | RustRes.crash => RustRes.crash

def elsifsDisplay : List ElsifTag → RustRes String
  | [] => RustRes.ok ""
  | t :: rest =>
    match ElsifTag.display t with
    | RustRes.ok s =>
      match elsifsDisplay rest with
      | RustRes.ok r => RustRes.ok (s ++ r)
      | RustRes.err e => RustRes.err e
      | RustRes.crash => RustRes.crash
    | RustRes.err e => RustRes.err e
    | RustRes.crash => RustRes.crash

end

/-- `Template` from `src/ast.rs` (lines 10-19). -/
structure Template where
  liquid : List Node

/-- `Display for Template` (`src/ast.rs` lines 15-19). -/
def Template.display (t : Template) : RustRes String := displayBlock t.liquid

/-- **C1** — The canonical printer breaks the parse/print round trip
(`impl fmt::Display for Node`, `src/ast.rs` lines 297-321, and
`impl fmt::Display for BooleanExpression`, lines 556-578): an `unless`
block prints with the closing tag text `unless` instead of `endunless`,
and every `Logical`/`Comparison`/`Membership` boolean expression prints a
stray comma after its operator, so the printed text of a parsed
`(% unless ... %)...(% endunless %)` template is not the template's
syntax, and a parsed `(% if true and false %)` condition prints as
`true and, false`. -/
theorem C1_printer_round_trip_broken :
    Template.display
        ⟨[Node.UnlessTag
            (⟨Whitespace.Default, Whitespace.Default⟩,
              ⟨Whitespace.Default, Whitespace.Default⟩)
            (BooleanExpression.Primitive Primitive.TrueLiteral)
            [Node.Content "x"] [] none]⟩
      = RustRes.ok "\x7b% unless true %\x7dx\x7b% unless %\x7d"
    ∧ "\x7b% unless true %\x7dx\x7b% unless %\x7d"
        ≠ "\x7b% unless true %\x7dx\x7b% endunless %\x7d"
    ∧ Template.display
        ⟨[Node.IfTag
            (⟨Whitespace.Default, Whitespace.Default⟩,
              ⟨Whitespace.Default, Whitespace.Default⟩)
            (BooleanExpression.Logical
              (BooleanExpression.Primitive Primitive.TrueLiteral)
              BooleanOperator.And
              (BooleanExpression.Primitive Primitive.FalseLiteral))
            [Node.Content "x"] [] none]⟩
      = RustRes.ok "\x7b% if true and, false %\x7dx\x7b% endif %\x7d" := by
  refine ⟨rfl, by decide, rfl⟩
